import Mathlib

/-!
# Verification of the turn-orchestration and document-indexing core

Shallow embedding of the multi-agent turn orchestrator
(`backend/agents/orchestrator.py`, `backend/agents/escalation_agent.py`,
the `can_handle` / `should_escalate` predicates of the domain agents) and of
the document-indexing pipeline (`backend/rag_utils.py`), together with
theorems settling the specification claims about them.

Conventions of the embedding:
* Python strings are `String`; substring tests (`kw in query`) are `substrB`.
* Python floats that only ever hold small decimal confidence constants are
  modelled as `ℚ`.
* External effects (LLM completions, S3, the vector store, faults raised by
  external calls) are supplied by explicit environment records, so every
  definition is executable.
* Wall-clock timestamps and random ticket identifiers are dropped: no claim
  mentions them.
-/

namespace CorporateChat

/-- Substring test: `needle` occurs contiguously inside `hay`
(Python's `needle in hay`). -/
def substrB (needle hay : String) : Bool :=
  hay.toList.tails.any (fun t => needle.toList.isPrefixOf t)

/-- Python's `str.lower()` (ASCII case folding; every keyword and query in
this development is ASCII).  Defined directly on the character list so it
reduces inside the kernel. -/
def lowerStr (s : String) : String :=
  ⟨s.toList.map Char.toLower⟩

/-! Confidence constants of the responders, as pre-normalized rationals (so
that every comparison reduces inside the kernel). -/

/-- 0.95 -/
def conf095 : ℚ := ⟨19, 20, by norm_num, by norm_num⟩

/-- 0.9 -/
def conf090 : ℚ := ⟨9, 10, by norm_num, by norm_num⟩

/-- 0.8 -/
def conf080 : ℚ := ⟨4, 5, by norm_num, by norm_num⟩

/-- 0.75 -/
def conf075 : ℚ := ⟨3, 4, by norm_num, by norm_num⟩

/-- 0.7 -/
def conf070 : ℚ := ⟨7, 10, by norm_num, by norm_num⟩

/-- 0.5 -/
def conf050 : ℚ := ⟨1, 2, by norm_num, by norm_num⟩

/-- `any(kw in query for kw in kws)` — some keyword occurs in the query. -/
def anyKw (kws : List String) (query : String) : Bool :=
  kws.any (fun k => substrB k query)

/-- `sum(1 for kw in kws if kw in query)` — number of matching keywords. -/
def countKw (kws : List String) (query : String) : Nat :=
  kws.countP (fun k => substrB k query)

/-! ## Data model (`backend/agents/state.py`) -/

/-- A responder's formatted response (`BaseAgent.format_response`). -/
structure Response where
  text : String
  follow_up_options : List String
  quote : Option String
  agent_name : String
deriving DecidableEq, Repr

/-- A handoff record appended by `_execute_secondary_agents`
(timestamp and context snapshot dropped). -/
structure Handoff where
  from_agent : String
  to_agent : String
  reason : String
deriving DecidableEq, Repr

/-- The mutable `AgentState` threaded through one orchestration run
(`state.py`).  The conversation history and the step/tool traces are not
modelled: no claim refers to their contents. -/
structure AgentState where
  user_query : String
  context : List (String × String)
  intent : Option String
  requires_collaboration : Bool
  primary_agent : Option String
  secondary_agents : List String
  consulted_agents : List String
  agent_handoffs : List Handoff
  active_agent : Option String
  confidence_score : ℚ
  escalation_required : Bool
  error : Option String
  final_response : Option String
  follow_up_options : List String
  primary_response : Option Response
  secondary_responses : List (String × Response)
  updated_context : List (String × String)
  quote : Option String
deriving DecidableEq, Repr

/-- Context lookup with default (`context.get(key, default)`). -/
def ctxGet (ctx : List (String × String)) (key dflt : String) : String :=
  (ctx.lookup key).getD dflt

/-- One key update of a context map (`dict[key] = value`). -/
def ctxSet (ctx : List (String × String)) (key value : String) :
    List (String × String) :=
  (key, value) :: ctx.filter (fun kv => kv.1 ≠ key)

/-- Merge-update of a context map (`dict.update(updates)`). -/
def ctxMerge (ctx updates : List (String × String)) : List (String × String) :=
  updates.foldl (fun c kv => ctxSet c kv.1 kv.2) ctx

/-! ## Intent classification (`AgentOrchestrator._classify_intent`) -/

/-- The intent-priority chain of `_classify_intent`, in source order:
each entry is (intent tag, trigger keywords). -/
def intentChain : List (String × List String) :=
  [("policy_query", ["policy", "benefit", "fee", "eligibility", "what is", "explain"]),
   ("account_management", ["balance", "limit", "account", "credit", "authorized user"]),
   ("transaction_inquiry", ["transaction", "charge", "statement", "purchase"]),
   ("dispute_filing", ["dispute", "fraud", "unauthorized"]),
   ("analytics_request", ["analytics", "spending", "trend", "report", "budget"]),
   ("escalation", ["escalate", "manager", "complaint", "speak to"])]

/-- The `domain_keywords` map used for multi-domain detection. -/
def domainKeywords : List (String × List String) :=
  [("policy", ["policy", "benefit", "fee"]),
   ("account", ["balance", "limit", "account"]),
   ("transaction", ["transaction", "charge"]),
   ("analytics", ["analytics", "spending", "report"])]

/-- `domains_mentioned` — how many domains have a keyword in the
(lowercased) query. -/
def domainsMentioned (lq : String) : Nat :=
  domainKeywords.countP (fun d => anyKw d.2 lq)

/-- The single-domain if/elif chain of `_classify_intent`, transcribed on the
lowercased query. -/
def chainIntent (lq : String) : String :=
  if anyKw ["policy", "benefit", "fee", "eligibility", "what is", "explain"] lq then
    "policy_query"
  else if anyKw ["balance", "limit", "account", "credit", "authorized user"] lq then
    "account_management"
  else if anyKw ["transaction", "charge", "statement", "purchase"] lq then
    "transaction_inquiry"
  else if anyKw ["dispute", "fraud", "unauthorized"] lq then
    "dispute_filing"
  else if anyKw ["analytics", "spending", "trend", "report", "budget"] lq then
    "analytics_request"
  else if anyKw ["escalate", "manager", "complaint", "speak to"] lq then
    "escalation"
  else
    "general_question"

/-- `_classify_intent` as a pure function of the query:
returns (intent tag, multi-domain flag). -/
def classifyQuery (q : String) : String × Bool :=
  let lq := lowerStr q
  if 2 ≤ domainsMentioned lq then ("multi_domain", true)
  else (chainIntent lq, false)

/-- The `classify_intent` workflow node: stores the intent and, in the
multi-domain case, sets `requires_collaboration`. -/
def classifyIntentNode (s : AgentState) : AgentState :=
  let r := classifyQuery s.user_query
  { s with intent := some r.1,
           requires_collaboration := s.requires_collaboration || r.2 }

/-- Spec-side reading of the priority chain: the first entry of
`intentChain` whose keyword set matches, defaulting to `general_question`. -/
def priorityFirstMatch (lq : String) : String :=
  ((intentChain.find? (fun pr => anyKw pr.2 lq)).map (fun pr => pr.1)).getD
    "general_question"

/-! ## Follow-up synthesis (`AgentOrchestrator._synthesize_response`) -/

/-- The `seen`-set de-duplication loop of `_synthesize_response`:
keeps the first occurrence of every string. -/
def dedupFirst (seen : List String) : List String → List String
  | [] => []
  | x :: xs =>
    if x ∈ seen then dedupFirst seen xs
    else x :: dedupFirst (x :: seen) xs

/-- The `synthesize_response` workflow node. -/
def synthesizeResponse (s : AgentState) : AgentState :=
  let primaryText := ((s.primary_response).map (fun r => r.text)).getD ""
  let combined :=
    if s.secondary_responses.isEmpty then primaryText
    else
      s.secondary_responses.foldl
        (fun acc pr =>
          acc ++ "**From " ++ pr.1 ++ "Agent:**\n" ++ pr.2.text ++ "\n\n")
        (primaryText ++ "\n\n---\n\n**Additional Information:**\n\n")
  let allFollowUps :=
    ((s.primary_response).map (fun r => r.follow_up_options)).getD [] ++
      (s.secondary_responses.map (fun pr => pr.2.follow_up_options)).flatten
  { s with final_response := some combined,
           follow_up_options := (dedupFirst [] allFollowUps).take 6 }

/-! ## Capability predicates of the responders
(`can_handle` in `policy_agent.py`, `account_agent.py`, `transaction_agent.py`,
`analytics_agent.py`, `escalation_agent.py`) -/

/-- Keyword list of `PolicyAgent.can_handle`. -/
def policyCanHandleKeywords : List String :=
  ["policy", "benefit", "eligibility", "credit limit", "fee",
   "rewards", "program", "insurance", "protection", "coverage",
   "annual fee", "interest rate", "apr", "cash advance",
   "foreign transaction", "travel", "purchase protection",
   "extended warranty", "what is", "explain", "tell me about",
   "how does", "what are the"]

/-- Keyword list of `AccountAgent.can_handle`. -/
def accountCanHandleKeywords : List String :=
  ["account", "balance", "credit limit", "available credit",
   "spending limit", "authorized user", "add user", "remove user",
   "account info", "account settings", "account status",
   "credit line", "increase limit", "decrease limit",
   "my account", "account summary", "check balance",
   "available funds", "how much credit"]

/-- Keyword list of `TransactionAgent.can_handle`. -/
def transactionCanHandleKeywords : List String :=
  ["transaction", "charge", "purchase", "payment", "statement",
   "dispute", "refund", "merchant", "receipt", "download",
   "recent transactions", "transaction history", "spending",
   "what did i spend", "show my", "find transaction"]

/-- Keyword list of `AnalyticsAgent.can_handle`. -/
def analyticsCanHandleKeywords : List String :=
  ["analytics", "report", "spending", "trend", "budget",
   "expense", "category", "breakdown", "analysis", "insight",
   "how much spent", "spending by", "monthly spending",
   "track", "compliance", "over budget"]

/-- Keyword list of `EscalationAgent.can_handle`. -/
def escalationCanHandleKeywords : List String :=
  ["escalate", "manager", "supervisor", "complaint", "speak to human",
   "not satisfied", "unhappy", "frustrated", "this is ridiculous",
   "want to cancel", "close account", "legal", "lawyer",
   "fraud", "stolen card", "emergency", "urgent", "immediately"]

/-- The `can_handle` predicate of a responder, as a function of the
lowercased query, the classified intent (empty string when unset), and the
`escalation_required` flag (read only by the escalation responder). -/
def canHandleQI (name lq intent : String) (escReq : Bool) : Bool × ℚ :=
  if name = "policy" then
    if intent = "policy_query" then (true, conf095)
    else
      let m := countKw policyCanHandleKeywords lq
      if 2 ≤ m then (true, conf090) else if m = 1 then (true, conf070) else (false, 0)
  else if name = "account" then
    if intent = "account_management" then (true, conf095)
    else
      let m := countKw accountCanHandleKeywords lq
      if 2 ≤ m then (true, conf090) else if m = 1 then (true, conf075) else (false, 0)
  else if name = "transaction" then
    if intent = "transaction_inquiry" ∨ intent = "dispute_filing" then (true, conf095)
    else
      let m := countKw transactionCanHandleKeywords lq
      if 2 ≤ m then (true, conf090) else if m = 1 then (true, conf075) else (false, 0)
  else if name = "analytics" then
    if intent = "analytics_request" then (true, conf095)
    else
      let m := countKw analyticsCanHandleKeywords lq
      if 2 ≤ m then (true, conf090) else if m = 1 then (true, conf070) else (false, 0)
  else if name = "escalation" then
    if intent = "escalation" then (true, conf095)
    else if escReq then (true, 1)
    else
      let m := countKw escalationCanHandleKeywords lq
      if 2 ≤ m then (true, conf090) else if m = 1 then (true, conf080) else (false, 0)
  else (false, 0)

/-- `agent.can_handle(state)`. -/
def canHandle (name : String) (s : AgentState) : Bool × ℚ :=
  canHandleQI name (lowerStr s.user_query) ((s.intent).getD "") s.escalation_required

/-- `agent.should_escalate(state)`; analytics and escalation responders
always answer `(False, "")`. -/
def shouldEscalate (name : String) (s : AgentState) : Bool × String :=
  let lq := lowerStr s.user_query
  if name = "policy" then
    match ["complaint", "dispute policy", "disagree with", "unfair",
           "manager", "supervisor"].find? (fun t => substrB t lq) with
    | some t => (true, "Policy complaint or dispute detected: " ++ t)
    | none => (false, "")
  else if name = "account" then
    match ["fraud", "unauthorized", "dispute", "close account",
           "cancel card", "complaint"].find? (fun t => substrB t lq) with
    | some t => (true, "Account issue requiring specialist: " ++ t)
    | none => (false, "")
  else if name = "transaction" then
    if anyKw ["fraud", "stolen", "unauthorized", "scam"] lq then
      (true, "Potential fraud - requires immediate attention")
    else (false, "")
  else (false, "")

/-! ## Execution environment

Everything a responder's `execute` gets from outside the core (LLM
completions, mock services) plus a fault oracle saying whether the external
call inside a given responder's `execute` raises. -/

/-- External environment for one orchestration run. -/
structure Env where
  /-- Does the external call inside this responder's `execute` raise? -/
  fault : String → Bool
  /-- The (LLM-backed) response a domain responder produces. -/
  resp : String → Response
  /-- Context updates a domain responder applies during `execute`. -/
  ctxUpd : String → List (String × String)
  /-- LLM text of the escalation question-gathering response. -/
  escGatherText : String
  /-- LLM text of the escalation ticket confirmation. -/
  escTicketText : String

/-! ## Escalation responder (`EscalationAgent`) -/

/-- `EscalationAgent._assess_escalation` (type, priority). -/
def assessEscalation (lq : String) : String × String :=
  if anyKw ["fraud", "stolen", "unauthorized", "scam", "emergency"] lq then
    ("fraud_security", "critical")
  else if anyKw ["close account", "cancel", "terminate"] lq then
    ("account_closure", "high")
  else if anyKw ["complaint", "unsatisfied", "unhappy", "frustrated"] lq then
    ("complaint", "medium")
  else if anyKw ["manager", "supervisor", "speak to human"] lq then
    ("general_escalation", "medium")
  else if anyKw ["can\x27t access", "locked out", "not working"] lq then
    ("technical_issue", "high")
  else ("general_escalation", "medium")

/-- `EscalationAgent._get_escalation_follow_ups`. -/
def escalationFollowUps (ty : String) : List String :=
  if ty = "fraud_security" then
    ["I have more information to add", "Check escalation status",
     "Speak with fraud team now"]
  else
    ["Add more details to my case", "Check escalation status",
     "Contact me another way", "I need immediate help"]

/-- `EscalationAgent._gather_information`: asks clarifying questions,
records the gathering phase in the updated context, and clears
`escalation_required`. -/
def gatherInformation (env : Env) (s : AgentState) : AgentState × Response :=
  let a := assessEscalation (lowerStr s.user_query)
  let s1 := { s with
    updated_context := ctxMerge s.updated_context
      [("escalation_phase", "gathering_info"), ("escalation_type", a.1),
       ("priority", a.2), ("support_category", "escalation")],
    escalation_required := false }
  (s1, { text := env.escGatherText,
         follow_up_options := ["I\x27d rather speak to someone now",
                               "Skip questions and escalate"],
         quote := none, agent_name := "EscalationAgent" })

/-- `EscalationAgent._create_ticket_with_info`: creates the ticket (random
ticket id modelled by a placeholder), marks the phase completed, and clears
`escalation_required`. -/
def createTicketWithInfo (env : Env) (s : AgentState) : AgentState × Response :=
  let ty := ctxGet s.context "escalation_type" "general_escalation"
  let pr := ctxGet s.context "priority" "medium"
  let s1 := { s with
    updated_context := ctxMerge s.updated_context
      [("support_category", "escalation"), ("escalation_ticket", "ESC-TICKET"),
       ("escalation_type", ty), ("priority", pr),
       ("escalation_phase", "completed")],
    escalation_required := false }
  (s1, { text := env.escTicketText,
         follow_up_options := escalationFollowUps ty,
         quote := none, agent_name := "EscalationAgent" })

/-- `EscalationAgent.execute`.  The `initial`-phase/no-skip case gathers
questions; every other case creates the ticket (the source's
`gathering_info`-or-skip branch and its fallback branch both call
`_create_ticket_with_info`).  A raised fault lands in the `except` handler,
which records the error and returns the apology response — without touching
`escalation_required`. -/
def escalationExecute (env : Env) (s : AgentState) : AgentState × Response :=
  if env.fault "escalation" then
    ({ s with error := some "escalation-fault" },
     { text := "I apologize for the inconvenience. Let me connect you with a support specialist immediately. Please hold while I transfer your request.",
       follow_up_options := ["Contact support now", "Try again later"],
       quote := none, agent_name := "EscalationAgent" })
  else
    let lq := lowerStr s.user_query
    let phase := ctxGet s.context "escalation_phase" "initial"
    let wantsSkip := anyKw ["skip", "speak to someone now", "immediate", "now",
                            "don\x27t want to answer"] lq
    if phase = "initial" && !wantsSkip then gatherInformation env s
    else createTicketWithInfo env s

/-- `execute` of a domain responder (policy/account/transaction/analytics).
Their branching and prompt building only shape the LLM-backed response text,
modelled by `env.resp`; each has a top-level `except` handler that records
the error and returns its fallback response. -/
def domainExecute (env : Env) (name : String) (s : AgentState) :
    AgentState × Response :=
  if env.fault name then
    ({ s with error := some (name ++ "-fault") },
     { text := "I apologize, but I encountered an error. Please try again.",
       follow_up_options := ["Try again", "Contact support"],
       quote := none, agent_name := name })
  else
    ({ s with updated_context := ctxMerge s.updated_context (env.ctxUpd name) },
     env.resp name)

/-- Dispatch `agent.execute(state)` by registry id. -/
def agentExecute (env : Env) (name : String) (s : AgentState) :
    AgentState × Response :=
  if name = "escalation" then escalationExecute env s
  else domainExecute env name s

/-! ## Orchestrator nodes (`AgentOrchestrator`) -/

/-- Registration order of `self.agents` (Python dict insertion order). -/
def agentNames : List String :=
  ["policy", "account", "transaction", "analytics", "escalation"]

/-- The best-agent scanning loop of `_route_to_agent`: keeps the current
best `(agent, confidence)`, updating only on `can_handle` true with strictly
greater confidence. -/
def routeFold (f : String → Bool × ℚ) :
    List String → Option String × ℚ → Option String × ℚ
  | [], acc => acc
  | nm :: rest, acc =>
    routeFold f rest
      (if (f nm).1 && decide (acc.2 < (f nm).2) then (some nm, (f nm).2) else acc)

/-- `_route_to_agent`, parametrized by the `can_handle` answers. -/
def routeToAgentWith (canH : String → AgentState → Bool × ℚ)
    (s : AgentState) : AgentState :=
  if s.escalation_required then
    { s with primary_agent := some "escalation", active_agent := some "escalation" }
  else
    let r := routeFold (fun nm => canH nm s) agentNames (none, 0)
    match r.1 with
    | some a =>
      { s with primary_agent := some a, active_agent := some a,
               confidence_score := r.2 }
    | none =>
      { s with primary_agent := some "policy", active_agent := some "policy",
               confidence_score := conf050 }

/-- The `route_to_agent` workflow node with the repository's agents. -/
def routeToAgent (s : AgentState) : AgentState :=
  routeToAgentWith canHandle s

/-- The `execute_primary_agent` workflow node. -/
def executePrimaryAgent (env : Env) (s : AgentState) : AgentState :=
  let name := (s.primary_agent).getD ""
  let s1 := { s with consulted_agents :=
    if name ∈ s.consulted_agents then s.consulted_agents
    else s.consulted_agents ++ [name] }
  let er := agentExecute env name s1
  let s2 := { er.1 with primary_response := some er.2,
                        final_response := some er.2.text,
                        follow_up_options := er.2.follow_up_options,
                        quote := er.2.quote }
  if (shouldEscalate name s2).1 then { s2 with escalation_required := true }
  else s2

/-- The secondary-agent poll of `_check_collaboration`: every registered
responder other than the primary and the escalation responder whose
`can_handle` answers true with confidence strictly above `0.5`. -/
def secondaryPoll (s : AgentState) (primary : String) : List String :=
  agentNames.filter (fun nm =>
    (nm != primary) && (nm != "escalation") &&
      (canHandle nm s).1 && decide (conf050 < (canHandle nm s).2))

/-- The `check_collaboration` workflow node. -/
def checkCollaboration (s : AgentState) : AgentState :=
  if s.requires_collaboration then
    { s with secondary_agents := secondaryPoll s ((s.primary_agent).getD "") }
  else s

/-- `_should_collaborate` conditional edge. -/
def shouldCollaborate (s : AgentState) : Bool :=
  s.requires_collaboration && !s.secondary_agents.isEmpty

/-- One iteration of the `_execute_secondary_agents` loop: record a handoff
from the currently active agent, make the secondary active, record the
consultation, and execute it. -/
def secondaryStep (env : Env) (nm : String) (s : AgentState) :
    AgentState × Response :=
  let s1 := { s with
    agent_handoffs := s.agent_handoffs ++
      [(⟨(s.active_agent).getD "", nm,
         "Multi-domain query collaboration"⟩ : Handoff)],
    active_agent := some nm }
  let s2 := { s1 with consulted_agents :=
    if nm ∈ s1.consulted_agents then s1.consulted_agents
    else s1.consulted_agents ++ [nm] }
  agentExecute env nm s2

/-- The loop of `_execute_secondary_agents` over the secondary list,
accumulating the responses. -/
def execSecondariesGo (env : Env) :
    List String → AgentState → List (String × Response) →
      AgentState × List (String × Response)
  | [], s, acc => (s, acc)
  | nm :: rest, s, acc =>
    let er := secondaryStep env nm s
    execSecondariesGo env rest er.1 (acc ++ [(nm, er.2)])

/-- The `execute_secondary_agents` workflow node; the collected responses
replace `secondary_responses` wholesale, as in the source. -/
def executeSecondaryAgents (env : Env) (s : AgentState) : AgentState :=
  let r := execSecondariesGo env s.secondary_agents s []
  { r.1 with secondary_responses := r.2 }

/-- The `check_escalation` workflow node — a pure pass-through. -/
def checkEscalation (s : AgentState) : AgentState := s

/-- `_needs_escalation` conditional edge. -/
def needsEscalation (s : AgentState) : Bool := s.escalation_required

/-- One pass of the compiled graph from `route_to_agent` through
`check_escalation`, following the conditional edges of `_build_workflow`. -/
def onePass (env : Env) (s : AgentState) : AgentState :=
  let s1 := routeToAgent s
  let s2 := executePrimaryAgent env s1
  let s3 := checkCollaboration s2
  if shouldCollaborate s3 then
    checkEscalation (synthesizeResponse (executeSecondaryAgents env s3))
  else checkEscalation s3

/-- The escalation re-routing loop: run passes until `_needs_escalation` is
false (or the step budget — LangGraph's recursion limit — is exhausted). -/
def turnLoop (env : Env) : Nat → AgentState → AgentState
  | 0, s => s
  | fuel + 1, s =>
    let s2 := onePass env s
    if needsEscalation s2 then turnLoop env fuel s2 else s2

/-- A full workflow run: `classify_intent`, then the routed passes. -/
def runWorkflow (env : Env) (fuel : Nat) (s : AgentState) : AgentState :=
  turnLoop env fuel (classifyIntentNode s)

/-! ## `AgentOrchestrator.process_message` -/

/-- One conversation-history entry (only the fields the orchestrator reads). -/
structure ChatMessage where
  isUser : Bool
  text : String
deriving DecidableEq, Repr

/-- The latest-user-message scan of `process_message`. -/
def extractUserQuery (messages : List ChatMessage) : String :=
  ((messages.reverse.find? (fun m => m.isUser)).map (fun m => m.text)).getD ""

/-- The `initial_state` dictionary built by `process_message`. -/
def mkInitialState (query : String) (context : List (String × String)) :
    AgentState :=
  { user_query := query, context := context, intent := none,
    requires_collaboration := false, primary_agent := none,
    secondary_agents := [], consulted_agents := [], agent_handoffs := [],
    active_agent := none, confidence_score := 0, escalation_required := false,
    error := none, final_response := none, follow_up_options := [],
    primary_response := none, secondary_responses := [],
    updated_context := context, quote := none }

/-- The response dictionary `process_message` returns (the step trace is not
modelled). -/
structure ChatResponse where
  text : Option String
  isUser : Bool
  active_agent : Option String
  consulted_agents : List String
  agent_handoffs : List Handoff
  follow_up_options : List String
  quote : Option String
  context : List (String × String)
  confidence_score : ℚ
deriving DecidableEq, Repr

/-- The fallback response of `process_message`'s `except` handler. -/
def fallbackResponse (context : List (String × String)) : ChatResponse :=
  { text := some "I apologize, but I encountered an error processing your request. Please try again or contact support.",
    isUser := false, active_agent := some "error_handler",
    consulted_agents := [], agent_handoffs := [],
    follow_up_options := ["Try again", "Contact support"], quote := none,
    context := context, confidence_score := 0 }

/-- The success-path formatting of `process_message` (every key is present
in the typed state, so the dictionary defaults of the source are never
consulted). -/
def formatResponse (st : AgentState) : ChatResponse :=
  { text := st.final_response, isUser := false, active_agent := st.active_agent,
    consulted_agents := st.consulted_agents,
    agent_handoffs := st.agent_handoffs,
    follow_up_options := st.follow_up_options, quote := st.quote,
    context := st.updated_context, confidence_score := st.confidence_score }

/-- `process_message`: everything inside the `try` is modelled by the
workflow run; `crash` is the oracle for an uncaught fault escaping the
workflow (e.g. LangGraph's recursion-limit error), which the `except`
handler converts to the fallback response. -/
def processMessage (env : Env) (fuel : Nat) (messages : List ChatMessage)
    (context : List (String × String)) (crash : Option String) : ChatResponse :=
  match crash with
  | some _ => fallbackResponse context
  | none =>
    formatResponse
      (runWorkflow env fuel (mkInitialState (extractUserQuery messages) context))

/-! ## Document indexing (`backend/rag_utils.py`, `RAGManager`) -/

/-- A stored chunk (embedding vector and extra metadata dropped; the id and
source key are what the upsert logic manipulates). -/
structure Chunk where
  id : String
  source : String
  text : String
deriving DecidableEq, Repr

/-- One entry of `indexed_documents.json` (`indexed_at` dropped). -/
structure DocRecord where
  size : Nat
  last_modified : String
  chunks : Nat
deriving DecidableEq, Repr

/-- The persistent state the indexer manipulates: the Chroma collection and
the indexed-documents tracking file. -/
structure RAGState where
  store : List Chunk
  indexedDocs : List (String × DocRecord)
deriving DecidableEq, Repr

/-- External environment of one `download_and_index_file` call: the S3
object's metadata, the splitter's output for its content, and a fault oracle
per external step. `deleteFault` is the `collection.get`/`collection.delete`
failure, which the source swallows with a bare `except: pass`. -/
structure S3Env where
  objSize : Nat
  objMtime : String
  pieces : List String
  headFault : Bool
  getFault : Bool
  loadFault : Bool
  embedFault : Bool
  deleteFault : Bool
  addFault : Bool
deriving DecidableEq, Repr

/-- The chunks currently stored for a source key. -/
def chunksFor (key : String) (store : List Chunk) : List Chunk :=
  store.filter (fun c => c.source = key)

/-- The chunk set `download_and_index_file` builds for a key
(ids `{key}_chunk_{i}`). -/
def newChunksFor (key : String) (pieces : List String) : List Chunk :=
  ((List.range pieces.length).zip pieces).map
    (fun p => ⟨key ++ "_chunk_" ++ toString p.1, key, p.2⟩)

/-- Replace-or-insert of a DocumentRecord
(`self.indexed_docs[s3_key] = {...}`). -/
def docSet (docs : List (String × DocRecord)) (key : String) (r : DocRecord) :
    List (String × DocRecord) :=
  (key, r) :: docs.filter (fun kv => kv.1 ≠ key)

/-- The change-detection test: the recorded size and last-modified both
equal the current object metadata. -/
def unchangedSkip (env : S3Env) (st : RAGState) (key : String) : Bool :=
  match st.indexedDocs.lookup key with
  | some r => r.size == env.objSize && r.last_modified == env.objMtime
  | none => false

/-- `RAGManager.download_and_index_file`, in source order: head-object,
change-detection skip, download, load+split, embed, delete-by-source
(failure swallowed), add, record update.  Every raised fault is caught by
the outer handlers and returns `false`; `collection.add` is modelled as an
atomic append. -/
def downloadAndIndexFile (env : S3Env) (st : RAGState) (key : String) :
    RAGState × Bool :=
  if env.headFault then (st, false)
  else if unchangedSkip env st key then (st, true)
  else if env.getFault then (st, false)
  else if env.loadFault then (st, false)
  else if env.embedFault then (st, false)
  else
    let afterDelete :=
      if env.deleteFault then st.store
      else st.store.filter (fun c => c.source ≠ key)
    if env.addFault then ({ st with store := afterDelete }, false)
    else
      ({ store := afterDelete ++ newChunksFor key env.pieces,
         indexedDocs := docSet st.indexedDocs key
           ⟨env.objSize, env.objMtime, env.pieces.length⟩ }, true)

/-! ## Concrete instances used by witnesses and counterexamples -/

/-- A canned LLM-backed response used in concrete runs. -/
def cannedResponse (name : String) : Response :=
  { text := "ok", follow_up_options := [], quote := none, agent_name := name }

/-- A fault-free environment with canned LLM output. -/
def envOk : Env :=
  { fault := fun _ => false, resp := cannedResponse, ctxUpd := fun _ => [],
    escGatherText := "questions", escTicketText := "ticket" }

/-- An environment where the escalation responder's external call raises. -/
def envEscFault : Env :=
  { envOk with fault := fun n => n == "escalation" }

/-- A stored state with one chunk for key `k`, recorded at size 1. -/
def ragStOne : RAGState :=
  { store := [⟨"k_chunk_0", "k", "old"⟩],
    indexedDocs := [("k", ⟨1, "t1", 1⟩)] }

/-- A changed object (size 2) whose `collection.add` raises. -/
def s3EnvAddFault : S3Env :=
  { objSize := 2, objMtime := "t2", pieces := ["new"], headFault := false,
    getFault := false, loadFault := false, embedFault := false,
    deleteFault := false, addFault := true }

/-- An unchanged object (size 1, mtime t1) with no faults. -/
def s3EnvUnchanged : S3Env :=
  { objSize := 1, objMtime := "t1", pieces := ["irrelevant"],
    headFault := false, getFault := false, loadFault := false,
    embedFault := false, deleteFault := false, addFault := false }

/-- A mid-turn state in which escalation was already requested and the
previous routing confidence was 0.8. -/
def escRequestedState : AgentState :=
  { mkInitialState "please help" [] with
    escalation_required := true, confidence_score := conf080 }

/-- A fixed set of `can_handle` answers with an exact confidence tie
between the second- and third-registered responders. -/
def routeWitnessAnswers : String → Bool × ℚ := fun nm =>
  if nm = "account" then (true, conf075)
  else if nm = "transaction" then (true, conf075)
  else (false, 0)

/-- A two-domain query (account: "balance"; transaction: "charge") whose
primary's `should_escalate` fires on "unauthorized". -/
def multiQuery : String :=
  "check my balance and dispute this unauthorized charge"

/-- A state whose primary response carries the follow-up list of the spec's
merge example. -/
def mergeExampleState : AgentState :=
  { mkInitialState "q" [] with
    primary_response := some
      { text := "p", follow_up_options := ["A", "B", "A", "C", "D", "E", "F", "G"],
        quote := none, agent_name := "PolicyAgent" },
    secondary_responses := [] }

/-! ## Helper lemmas -/

/-- The if/elif intent chain is the first match of the priority table. -/
theorem chainIntent_eq_priorityFirstMatch (lq : String) :
    chainIntent lq = priorityFirstMatch lq := by
  unfold chainIntent priorityFirstMatch intentChain
  cases h1 : anyKw ["policy", "benefit", "fee", "eligibility", "what is", "explain"] lq <;>
    cases h2 : anyKw ["balance", "limit", "account", "credit", "authorized user"] lq <;>
      cases h3 : anyKw ["transaction", "charge", "statement", "purchase"] lq <;>
        cases h4 : anyKw ["dispute", "fraud", "unauthorized"] lq <;>
          cases h5 : anyKw ["analytics", "spending", "trend", "report", "budget"] lq <;>
            cases h6 : anyKw ["escalate", "manager", "complaint", "speak to"] lq <;>
              simp [List.find?, h1, h2, h3, h4, h5, h6]

/-- De-duplication keeps a sublist of the input. -/
theorem dedupFirst_sublist (l : List String) :
    ∀ seen, List.Sublist (dedupFirst seen l) l := by
  induction l with
  | nil => intro seen; simp [dedupFirst]
  | cons x xs ih =>
    intro seen
    unfold dedupFirst
    split
    · exact (ih seen).trans (List.sublist_cons_self x xs)
    · exact List.Sublist.cons₂ x (ih (x :: seen))

/-- Membership after de-duplication: still in the list, never in `seen`. -/
theorem dedupFirst_mem (l : List String) :
    ∀ seen x, x ∈ dedupFirst seen l ↔ x ∈ l ∧ x ∉ seen := by
  induction l with
  | nil => intro seen x; simp [dedupFirst]
  | cons y xs ih =>
    intro seen x
    unfold dedupFirst
    split
    · rename_i hy
      rw [ih]
      simp only [List.mem_cons]
      constructor
      · exact fun h => ⟨Or.inr h.1, h.2⟩
      · rintro ⟨h | h, hn⟩
        · exact absurd (h ▸ hy) hn
        · exact ⟨h, hn⟩
    · rename_i hy
      simp only [List.mem_cons, ih, List.mem_cons]
      constructor
      · rintro (rfl | ⟨hm, hn⟩)
        · exact ⟨Or.inl rfl, hy⟩
        · exact ⟨Or.inr hm, fun hs => hn (Or.inr hs)⟩
      · rintro ⟨rfl | hm, hn⟩
        · exact Or.inl rfl
        · by_cases hxy : x = y
          · exact Or.inl hxy
          · exact Or.inr ⟨hm, fun hs => hs.elim (fun h => hxy h) hn⟩

/-- De-duplication produces a duplicate-free list. -/
theorem dedupFirst_nodup (l : List String) :
    ∀ seen, (dedupFirst seen l).Nodup := by
  induction l with
  | nil => intro seen; simp [dedupFirst]
  | cons x xs ih =>
    intro seen
    unfold dedupFirst
    split
    · exact ih seen
    · refine List.Nodup.cons ?_ (ih (x :: seen))
      intro hmem
      exact ((dedupFirst_mem xs (x :: seen) x).1 hmem).2 (List.mem_cons_self x seen)

/-! ## Claim theorems -/

/-- C6: Intent classification is a pure, deterministic, case-insensitive
function of the query: with keywords of at least two distinct domains
present, the intent is forced to `multi_domain` with the collaboration flag
set, regardless of single-domain matches; otherwise the intent is the first
domain matched in the fixed priority order, defaulting to
`general_question`, with the collaboration flag unset. -/
theorem classify_intent_pure_priority :
    (∀ q r : String, lowerStr q = lowerStr r → classifyQuery q = classifyQuery r) ∧
    (∀ q : String, 2 ≤ domainsMentioned (lowerStr q) →
      classifyQuery q = ("multi_domain", true)) ∧
    (∀ q : String, domainsMentioned (lowerStr q) < 2 →
      classifyQuery q = (priorityFirstMatch (lowerStr q), false)) := by
  refine ⟨?_, ?_, ?_⟩
  · intro q r h
    unfold classifyQuery
    rw [h]
  · intro q h
    unfold classifyQuery
    rw [if_pos h]
  · intro q h
    unfold classifyQuery
    rw [if_neg (by omega), chainIntent_eq_priorityFirstMatch]

/-- Witness for C6 at a concrete two-domain query. -/
theorem classify_intent_pure_priority_witness :
    2 ≤ domainsMentioned (lowerStr "Check my BALANCE and the annual fee") ∧
    classifyQuery "Check my BALANCE and the annual fee" = ("multi_domain", true) :=
  ⟨by decide, classify_intent_pure_priority.2.1 _ (by decide)⟩

/-- C7 counterexample: merging the concatenation
`["A","B","A","C","D","E","F","G"]` yields `["A","B","C","D","E","F"]`
(the first six unique items in first-seen order), not the
`["A","B","C","D","E","G"]` the claim states. -/
theorem follow_up_merge_example_counterexample :
    (synthesizeResponse mergeExampleState).follow_up_options =
      ["A", "B", "C", "D", "E", "F"] ∧
    (synthesizeResponse mergeExampleState).follow_up_options ≠
      ["A", "B", "C", "D", "E", "G"] := by decide

/-- C7 amended: the synthesized follow-up list is the primary-then-secondary
concatenation de-duplicated by exact string match keeping first occurrences
and truncated to the first 6; the concatenation
`["A","B","A","C","D","E","F","G"]` yields `["A","B","C","D","E","F"]`, and
primary `["A","B"]` with secondary `["B","C","D","E","F"]` yields
`["A","B","C","D","E","F"]`. -/
theorem follow_up_merge_first_six :
    (∀ s : AgentState,
        (synthesizeResponse s).follow_up_options =
          (dedupFirst []
            (((s.primary_response).map (fun r => r.follow_up_options)).getD [] ++
             (s.secondary_responses.map
               (fun pr => pr.2.follow_up_options)).flatten)).take 6) ∧
    (∀ all : List String,
        (dedupFirst [] all).Nodup ∧ List.Sublist (dedupFirst [] all) all ∧
          ∀ x, x ∈ dedupFirst [] all ↔ x ∈ all) ∧
    (synthesizeResponse mergeExampleState).follow_up_options =
      ["A", "B", "C", "D", "E", "F"] ∧
    (synthesizeResponse { mergeExampleState with
        primary_response := some ⟨"p", ["A", "B"], none, "PolicyAgent"⟩,
        secondary_responses :=
          [("account", ⟨"s", ["B", "C", "D", "E", "F"], none, "AccountAgent"⟩)]
        }).follow_up_options =
      ["A", "B", "C", "D", "E", "F"] := by
  refine ⟨fun s => rfl, fun all => ⟨dedupFirst_nodup all [], dedupFirst_sublist all [],
    fun x => by simp [dedupFirst_mem]⟩, by decide, by decide⟩

/-- C8: re-ingesting a source whose recorded size and last-modified both
match the current object returns success without touching the ChunkStore,
so the chunk set (hence chunk count) for that source is unchanged. -/
theorem ingest_unchanged_idempotent (env : S3Env) (st : RAGState) (key : String)
    (hh : env.headFault = false) (hskip : unchangedSkip env st key = true) :
    downloadAndIndexFile env st key = (st, true) ∧
    chunksFor key (downloadAndIndexFile env st key).1.store =
      chunksFor key st.store := by
  have h1 : downloadAndIndexFile env st key = (st, true) := by
    unfold downloadAndIndexFile
    rw [hh, hskip]
    simp
  exact ⟨h1, by rw [h1]⟩

/-- Witness for C8 on a concrete unchanged document. -/
theorem ingest_unchanged_idempotent_witness :
    s3EnvUnchanged.headFault = false ∧
    unchangedSkip s3EnvUnchanged ragStOne "k" = true ∧
    downloadAndIndexFile s3EnvUnchanged ragStOne "k" = (ragStOne, true) ∧
    chunksFor "k" (downloadAndIndexFile s3EnvUnchanged ragStOne "k").1.store =
      chunksFor "k" ragStOne.store :=
  ⟨rfl, by decide,
   (ingest_unchanged_idempotent s3EnvUnchanged ragStOne "k" rfl (by decide)).1,
   (ingest_unchanged_idempotent s3EnvUnchanged ragStOne "k" rfl (by decide)).2⟩

/-- C3 counterexample: on a changed document, when `collection.add` fails
after the delete completed, the key ends with no chunks at all — the old
set (non-empty) is gone and the new set (non-empty) was never inserted, so
the replacement is neither committed nor rolled back. -/
theorem ingest_not_atomic_counterexample :
    (downloadAndIndexFile s3EnvAddFault ragStOne "k").2 = false ∧
    chunksFor "k" (downloadAndIndexFile s3EnvAddFault ragStOne "k").1.store = [] ∧
    chunksFor "k" ragStOne.store ≠ [] ∧
    newChunksFor "k" s3EnvAddFault.pieces ≠ [] ∧
    ¬(chunksFor "k" (downloadAndIndexFile s3EnvAddFault ragStOne "k").1.store =
        newChunksFor "k" s3EnvAddFault.pieces ∨
      (downloadAndIndexFile s3EnvAddFault ragStOne "k").1 = ragStOne) := by
  decide

/-- C3 amended: a failure of the download, load, or embedding step (all of
which precede any store mutation) leaves the ChunkStore and the
DocumentRecord untouched, and the DocumentRecord is updated only after a
successful insert; but the replacement is not all-or-nothing — when the
insert fails after a successful delete, the key ends with no chunks at all
and the prior DocumentRecord stands. -/
theorem ingest_failure_outcomes (env : S3Env) (st : RAGState) (key : String)
    (hns : unchangedSkip env st key = false) (hh : env.headFault = false) :
    ((env.getFault = true ∨ env.loadFault = true ∨ env.embedFault = true) →
        downloadAndIndexFile env st key = (st, false)) ∧
    (env.getFault = false → env.loadFault = false → env.embedFault = false →
      env.deleteFault = false → env.addFault = false →
        downloadAndIndexFile env st key =
          ({ store := st.store.filter (fun c => c.source ≠ key) ++
               newChunksFor key env.pieces,
             indexedDocs := docSet st.indexedDocs key
               ⟨env.objSize, env.objMtime, env.pieces.length⟩ }, true)) ∧
    (env.getFault = false → env.loadFault = false → env.embedFault = false →
      env.deleteFault = false → env.addFault = true →
        downloadAndIndexFile env st key =
          ({ st with store := st.store.filter (fun c => c.source ≠ key) },
           false)) := by
  refine ⟨?_, ?_, ?_⟩
  · rintro (hg | hl | he)
    · simp [downloadAndIndexFile, hns, hh, hg]
    · cases hg : env.getFault <;> simp [downloadAndIndexFile, hns, hh, hg, hl]
    · cases hg : env.getFault <;>
        cases hl : env.loadFault <;>
          simp [downloadAndIndexFile, hns, hh, hg, hl, he]
  · intro hg hl he hd ha
    simp [downloadAndIndexFile, hns, hh, hg, hl, he, hd, ha]
  · intro hg hl he hd ha
    simp [downloadAndIndexFile, hns, hh, hg, hl, he, hd, ha]

/-- Witness for the amended C3 on the concrete failed-insert run. -/
theorem ingest_failure_outcomes_witness :
    unchangedSkip s3EnvAddFault ragStOne "k" = false ∧
    downloadAndIndexFile s3EnvAddFault ragStOne "k" =
      ({ ragStOne with
          store := ragStOne.store.filter (fun c => c.source ≠ "k") }, false) :=
  ⟨by decide,
   (ingest_failure_outcomes s3EnvAddFault ragStOne "k" (by decide) rfl).2.2
     rfl rfl rfl rfl rfl⟩

/-- Characterization of the best-agent scan: either no candidate beats the
starting confidence and the accumulator survives, or the result is the
first candidate attaining the maximal confidence (strictly above everything
polled before it, at least everything polled after it). -/
theorem routeFold_spec (f : String → Bool × ℚ) :
    ∀ (l : List String) (ba : Option String) (bc : ℚ),
      ((∀ nm ∈ l, (f nm).1 = true → (f nm).2 ≤ bc) ∧
        routeFold f l (ba, bc) = (ba, bc)) ∨
      (∃ l₁ p l₂, l = l₁ ++ p :: l₂ ∧ (f p).1 = true ∧ bc < (f p).2 ∧
        routeFold f l (ba, bc) = (some p, (f p).2) ∧
        (∀ nm ∈ l₁, (f nm).1 = true → (f nm).2 < (f p).2) ∧
        (∀ nm ∈ l₂, (f nm).1 = true → (f nm).2 ≤ (f p).2)) := by
  intro l
  induction l with
  | nil =>
    intro ba bc
    exact Or.inl ⟨by simp, rfl⟩
  | cons nm rest ih =>
    intro ba bc
    by_cases hc : (f nm).1 = true ∧ bc < (f nm).2
    · have hstep : routeFold f (nm :: rest) (ba, bc) =
          routeFold f rest (some nm, (f nm).2) := by
        simp only [routeFold]
        rw [if_pos (by simp [hc.1, hc.2])]
      rcases ih (some nm) (f nm).2 with ⟨hall, heq⟩ |
        ⟨l₁, p, l₂, hdec, hp, hlt, hres, h₁, h₂⟩
      · exact Or.inr ⟨[], nm, rest, rfl, hc.1, hc.2, hstep.trans heq,
          by simp, hall⟩
      · refine Or.inr ⟨nm :: l₁, p, l₂, by rw [hdec, List.cons_append], hp,
          lt_trans hc.2 hlt, hstep.trans hres, ?_, h₂⟩
        intro x hx hfx
        rcases List.mem_cons.1 hx with rfl | hx'
        · exact hlt
        · exact h₁ x hx' hfx
    · have hstep : routeFold f (nm :: rest) (ba, bc) =
          routeFold f rest (ba, bc) := by
        simp only [routeFold]
        rw [if_neg ?hneg]
        case hneg =>
          intro hb
          rcases Bool.and_eq_true_iff.1 hb with ⟨h1, h2⟩
          exact hc ⟨h1, of_decide_eq_true h2⟩
      rcases ih ba bc with ⟨hall, heq⟩ |
        ⟨l₁, p, l₂, hdec, hp, hlt, hres, h₁, h₂⟩
      · refine Or.inl ⟨?_, hstep.trans heq⟩
        intro x hx hfx
        rcases List.mem_cons.1 hx with rfl | hx'
        · exact le_of_not_lt (fun hl2 => hc ⟨hfx, hl2⟩)
        · exact hall x hx' hfx
      · refine Or.inr ⟨nm :: l₁, p, l₂, by rw [hdec, List.cons_append], hp, hlt,
          hstep.trans hres, ?_, h₂⟩
        intro x hx hfx
        rcases List.mem_cons.1 hx with rfl | hx'
        · exact lt_of_le_of_lt (le_of_not_lt (fun hl2 => hc ⟨hfx, hl2⟩)) hlt
        · exact h₁ x hx' hfx

/-- A `can_handle` answer of the repository's responders is one of finitely
many (capability, confidence) pairs. -/
theorem canHandle_cases (name : String) (s : AgentState) :
    canHandle name s = (false, 0) ∨ canHandle name s = (true, conf095) ∨
    canHandle name s = (true, 1) ∨ canHandle name s = (true, conf090) ∨
    canHandle name s = (true, conf080) ∨ canHandle name s = (true, conf075) ∨
    canHandle name s = (true, conf070) := by
  unfold canHandle canHandleQI
  dsimp only
  split_ifs <;> simp

/-- Every `can_handle` answer of the repository's responders that claims
capability carries a confidence in (0, 1]. -/
theorem canHandle_pos (name : String) (s : AgentState) :
    (canHandle name s).1 = true →
      0 < (canHandle name s).2 ∧ (canHandle name s).2 ≤ 1 := by
  intro h
  rcases canHandle_cases name s with hcs | hcs | hcs | hcs | hcs | hcs | hcs <;>
    rw [hcs] <;> first
      | (rw [hcs] at h; exact absurd h (by decide))
      | exact ⟨by decide, by decide⟩

/-- C2: with `escalation_required` unset and every capable answer scored in
(0,1] (as the responder protocol guarantees and `canHandle_pos` proves for
this repository's responders), `route` picks the responder with the
strictly greatest confidence among those answering true, resolving exact
ties to the earliest-registered one; when nobody answers true it falls back
to the `policy` responder at confidence 0.5; and equal answer sets give
equal routing outcomes. -/
theorem router_max_confidence_first_tie
    (f : String → Bool × ℚ) (s : AgentState)
    (hesc : s.escalation_required = false)
    (hpos : ∀ nm ∈ agentNames, (f nm).1 = true →
      0 < (f nm).2 ∧ (f nm).2 ≤ 1) :
    ((∀ nm ∈ agentNames, (f nm).1 = false) →
      (routeToAgentWith (fun nm _ => f nm) s).primary_agent = some "policy" ∧
      (routeToAgentWith (fun nm _ => f nm) s).confidence_score = conf050) ∧
    ((∃ nm ∈ agentNames, (f nm).1 = true) →
      ∃ l₁ p l₂, agentNames = l₁ ++ p :: l₂ ∧
        (routeToAgentWith (fun nm _ => f nm) s).primary_agent = some p ∧
        (routeToAgentWith (fun nm _ => f nm) s).confidence_score = (f p).2 ∧
        (f p).1 = true ∧
        (∀ nm ∈ agentNames, (f nm).1 = true → (f nm).2 ≤ (f p).2) ∧
        (∀ nm ∈ l₁, (f nm).1 = true → (f nm).2 < (f p).2)) ∧
    (∀ g : String → Bool × ℚ, (∀ nm, f nm = g nm) →
      routeToAgentWith (fun nm _ => f nm) s =
        routeToAgentWith (fun nm _ => g nm) s) := by
  have hdet : ∀ g : String → Bool × ℚ, (∀ nm, f nm = g nm) →
      routeToAgentWith (fun nm _ => f nm) s =
        routeToAgentWith (fun nm _ => g nm) s := by
    intro g hg
    have hfg : f = g := funext hg
    subst hfg
    rfl
  rcases routeFold_spec f agentNames none 0 with ⟨hall, heq⟩ |
    ⟨l₁, p, l₂, hdec, hp, hlt, hres, h₁, h₂⟩
  · have heq2 : routeFold (fun nm => f nm) agentNames (none, 0) = (none, 0) := heq
    have hnone : routeToAgentWith (fun nm _ => f nm) s =
        { s with primary_agent := some "policy", active_agent := some "policy",
                 confidence_score := conf050 } := by
      simp [routeToAgentWith, hesc, heq2]
    refine ⟨fun _ => by rw [hnone]; exact ⟨rfl, rfl⟩, ?_, hdet⟩
    rintro ⟨nm, hmem, htrue⟩
    exact absurd (hpos nm hmem htrue).1 (not_lt.2 (hall nm hmem htrue))
  · have hres2 : routeFold (fun nm => f nm) agentNames (none, 0) =
        (some p, (f p).2) := hres
    have hsome : routeToAgentWith (fun nm _ => f nm) s =
        { s with primary_agent := some p, active_agent := some p,
                 confidence_score := (f p).2 } := by
      simp [routeToAgentWith, hesc, hres2]
    refine ⟨?_, ?_, hdet⟩
    · intro hallf
      have hmem : p ∈ agentNames := by rw [hdec]; simp
      rw [hallf p hmem] at hp
      exact absurd hp (by simp)
    · intro _
      refine ⟨l₁, p, l₂, hdec, by rw [hsome], by rw [hsome], hp, ?_, h₁⟩
      intro nm hmem htrue
      rw [hdec] at hmem
      rcases List.mem_append.1 hmem with hm1 | hm2
      · exact le_of_lt (h₁ nm hm1 htrue)
      · rcases List.mem_cons.1 hm2 with rfl | hm3
        · exact le_refl _
        · exact h₂ nm hm3 htrue

/-- Witness for C2: an exact tie at confidence 0.75 between the
second-registered `account` and third-registered `transaction` responders
resolves to `account`. -/
theorem router_max_confidence_first_tie_witness :
    (mkInitialState "hello" []).escalation_required = false ∧
    (∀ nm ∈ agentNames, (routeWitnessAnswers nm).1 = true →
      0 < (routeWitnessAnswers nm).2 ∧ (routeWitnessAnswers nm).2 ≤ 1) ∧
    (∃ l₁ p l₂, agentNames = l₁ ++ p :: l₂ ∧
      (routeToAgentWith (fun nm _ => routeWitnessAnswers nm)
        (mkInitialState "hello" [])).primary_agent = some p ∧
      (routeToAgentWith (fun nm _ => routeWitnessAnswers nm)
        (mkInitialState "hello" [])).confidence_score =
          (routeWitnessAnswers p).2 ∧
      (routeWitnessAnswers p).1 = true ∧
      (∀ nm ∈ agentNames, (routeWitnessAnswers nm).1 = true →
        (routeWitnessAnswers nm).2 ≤ (routeWitnessAnswers p).2) ∧
      (∀ nm ∈ l₁, (routeWitnessAnswers nm).1 = true →
        (routeWitnessAnswers nm).2 < (routeWitnessAnswers p).2)) :=
  ⟨rfl, by decide,
   (router_max_confidence_first_tie routeWitnessAnswers
      (mkInitialState "hello" []) rfl (by decide)).2.1
     ⟨"account", by decide, by decide⟩⟩

/-- C4 counterexample: when `escalation_required` is already set, `route`
picks the escalation responder but leaves `confidence_score` at its previous
value (here 0.8) — it does not set it to 1.0 as the claim states. -/
theorem route_escalation_confidence_counterexample :
    (routeToAgent escRequestedState).primary_agent = some "escalation" ∧
    (routeToAgent escRequestedState).active_agent = some "escalation" ∧
    (routeToAgent escRequestedState).confidence_score = conf080 ∧
    ¬((routeToAgent escRequestedState).confidence_score = 1) := by
  decide

/-- C4 amended: when `escalation_required` is set, `route` makes the
escalation responder primary and active without consulting any responder's
`can_handle` (the outcome is independent of the capability answers), and it
leaves `confidence_score` unchanged; when the flag is unset, routing does
consult the answers (different answer sets can produce different
primaries), so the flag path is the only one bypassing capability polling. -/
theorem route_escalation_bypass (canH : String → AgentState → Bool × ℚ)
    (s : AgentState) (h : s.escalation_required = true) :
    routeToAgentWith canH s =
      { s with primary_agent := some "escalation",
               active_agent := some "escalation" } ∧
    (∀ canH2, routeToAgentWith canH s = routeToAgentWith canH2 s) ∧
    (∀ t : AgentState, t.escalation_required = false →
      ∃ c₁ c₂, (routeToAgentWith c₁ t).primary_agent ≠
        (routeToAgentWith c₂ t).primary_agent) := by
  refine ⟨?_, ?_, ?_⟩
  · unfold routeToAgentWith
    rw [if_pos h]
  · intro canH2
    unfold routeToAgentWith
    rw [if_pos h, if_pos h]
  · intro t ht
    refine ⟨fun _ _ => (false, 0),
      fun nm _ => ((nm == "transaction" : Bool), conf090), ?_⟩
    have e1 : routeToAgentWith (fun _ _ => ((false : Bool), (0 : ℚ))) t =
        { t with primary_agent := some "policy", active_agent := some "policy",
                 confidence_score := conf050 } := by
      unfold routeToAgentWith
      rw [if_neg (by simp [ht])]
      exact rfl
    have e2 : routeToAgentWith
        (fun nm _ => ((nm == "transaction" : Bool), conf090)) t =
        { t with primary_agent := some "transaction",
                 active_agent := some "transaction",
                 confidence_score := conf090 } := by
      unfold routeToAgentWith
      rw [if_neg (by simp [ht])]
      exact rfl
    rw [e1, e2]
    simp

/-- Witness for the amended C4 at a concrete flagged state. -/
theorem route_escalation_bypass_witness :
    escRequestedState.escalation_required = true ∧
    routeToAgent escRequestedState =
      { escRequestedState with primary_agent := some "escalation",
                               active_agent := some "escalation" } :=
  ⟨rfl, (route_escalation_bypass canHandle escRequestedState rfl).1⟩

/-- C1 (code-bug evidence): when the escalation responder's `execute` hits
its internal fault handler while `escalation_required` is set, the handler
returns without clearing the flag — so the very next `check_escalation`
re-routes again: after two full passes on the faulting environment the flag
is still set, triggering a third re-route, contrary to the clear-before-
return rule the code's own "prevent recursion" comment states. -/
theorem escalation_fault_leaves_flag_set :
    (escalationExecute envEscFault
      { mkInitialState "fraud complaint about my account" [] with
        escalation_required := true }).1.escalation_required = true ∧
    (onePass envEscFault (onePass envEscFault (classifyIntentNode
      (mkInitialState "fraud complaint about my account"
        [])))).escalation_required = true := by
  exact ⟨by decide, by decide⟩

/-! ## Field-preservation lemmas for the workflow nodes -/

/-- A responder's `execute` does not touch the orchestration bookkeeping:
it can only change `escalation_required`, `error` and `updated_context`. -/
theorem agentExecute_core (env : Env) (n : String) (s : AgentState) :
    ((agentExecute env n s).1).user_query = s.user_query ∧
    ((agentExecute env n s).1).intent = s.intent ∧
    ((agentExecute env n s).1).requires_collaboration =
      s.requires_collaboration ∧
    ((agentExecute env n s).1).primary_agent = s.primary_agent ∧
    ((agentExecute env n s).1).secondary_agents = s.secondary_agents ∧
    ((agentExecute env n s).1).consulted_agents = s.consulted_agents ∧
    ((agentExecute env n s).1).agent_handoffs = s.agent_handoffs ∧
    ((agentExecute env n s).1).active_agent = s.active_agent ∧
    ((agentExecute env n s).1).context = s.context ∧
    ((agentExecute env n s).1).final_response = s.final_response ∧
    ((agentExecute env n s).1).follow_up_options = s.follow_up_options ∧
    ((agentExecute env n s).1).primary_response = s.primary_response ∧
    ((agentExecute env n s).1).secondary_responses = s.secondary_responses ∧
    ((agentExecute env n s).1).confidence_score = s.confidence_score ∧
    ((agentExecute env n s).1).quote = s.quote := by
  unfold agentExecute escalationExecute domainExecute gatherInformation
    createTicketWithInfo
  dsimp only
  split_ifs <;>
    exact ⟨rfl, rfl, rfl, rfl, rfl, rfl, rfl, rfl, rfl, rfl, rfl, rfl, rfl,
      rfl, rfl⟩

/-- On every non-fault path the escalation responder clears
`escalation_required` before returning. -/
theorem escalationExecute_clears (env : Env) (s : AgentState)
    (h : env.fault "escalation" = false) :
    ((escalationExecute env s).1).escalation_required = false := by
  unfold escalationExecute gatherInformation createTicketWithInfo
  rw [if_neg (by simp [h])]
  dsimp only
  split <;> rfl

/-- A domain responder's `execute` leaves `escalation_required` unchanged. -/
theorem agentExecute_flag (env : Env) (n : String) (s : AgentState)
    (h : ¬n = "escalation") :
    ((agentExecute env n s).1).escalation_required = s.escalation_required := by
  unfold agentExecute domainExecute
  rw [if_neg h]
  split_ifs <;> rfl

/-- `route_to_agent` only assigns `primary_agent`, `active_agent` and (on
the polling path) `confidence_score`. -/
theorem routeToAgentWith_core (c : String → AgentState → Bool × ℚ)
    (s : AgentState) :
    (routeToAgentWith c s).user_query = s.user_query ∧
    (routeToAgentWith c s).intent = s.intent ∧
    (routeToAgentWith c s).requires_collaboration = s.requires_collaboration ∧
    (routeToAgentWith c s).secondary_agents = s.secondary_agents ∧
    (routeToAgentWith c s).consulted_agents = s.consulted_agents ∧
    (routeToAgentWith c s).agent_handoffs = s.agent_handoffs ∧
    (routeToAgentWith c s).escalation_required = s.escalation_required ∧
    (routeToAgentWith c s).context = s.context ∧
    (routeToAgentWith c s).final_response = s.final_response ∧
    (routeToAgentWith c s).follow_up_options = s.follow_up_options ∧
    (routeToAgentWith c s).primary_response = s.primary_response ∧
    (routeToAgentWith c s).secondary_responses = s.secondary_responses ∧
    (routeToAgentWith c s).updated_context = s.updated_context ∧
    (routeToAgentWith c s).quote = s.quote ∧
    ∃ a, (routeToAgentWith c s).primary_agent = some a := by
  unfold routeToAgentWith
  split
  · exact ⟨rfl, rfl, rfl, rfl, rfl, rfl, rfl, rfl, rfl, rfl, rfl, rfl, rfl,
      rfl, "escalation", rfl⟩
  · dsimp only
    split
    · exact ⟨rfl, rfl, rfl, rfl, rfl, rfl, rfl, rfl, rfl, rfl, rfl, rfl, rfl,
        rfl, _, rfl⟩
    · exact ⟨rfl, rfl, rfl, rfl, rfl, rfl, rfl, rfl, rfl, rfl, rfl, rfl, rfl,
        rfl, "policy", rfl⟩

/-- When `escalation_required` is set, `route` deterministically selects the
escalation responder (and changes nothing else). -/
theorem routeToAgent_flagged (s : AgentState)
    (h : s.escalation_required = true) :
    routeToAgent s = { s with primary_agent := some "escalation",
                              active_agent := some "escalation" } := by
  unfold routeToAgent routeToAgentWith
  rw [if_pos h]

/-- `execute_primary_agent` preserves the routing decision and the
collaboration bookkeeping, and always produces a final response text. -/
theorem executePrimaryAgent_core (env : Env) (s : AgentState) :
    (executePrimaryAgent env s).user_query = s.user_query ∧
    (executePrimaryAgent env s).intent = s.intent ∧
    (executePrimaryAgent env s).requires_collaboration =
      s.requires_collaboration ∧
    (executePrimaryAgent env s).primary_agent = s.primary_agent ∧
    (executePrimaryAgent env s).secondary_agents = s.secondary_agents ∧
    (executePrimaryAgent env s).agent_handoffs = s.agent_handoffs ∧
    (executePrimaryAgent env s).active_agent = s.active_agent ∧
    (executePrimaryAgent env s).context = s.context ∧
    (executePrimaryAgent env s).secondary_responses = s.secondary_responses ∧
    (executePrimaryAgent env s).confidence_score = s.confidence_score ∧
    ∃ t, (executePrimaryAgent env s).final_response = some t := by
  unfold executePrimaryAgent
  dsimp only
  split_ifs <;>
    exact ⟨(agentExecute_core _ _ _).1, (agentExecute_core _ _ _).2.1,
      (agentExecute_core _ _ _).2.2.1, (agentExecute_core _ _ _).2.2.2.1,
      (agentExecute_core _ _ _).2.2.2.2.1,
      (agentExecute_core _ _ _).2.2.2.2.2.2.1,
      (agentExecute_core _ _ _).2.2.2.2.2.2.2.1,
      (agentExecute_core _ _ _).2.2.2.2.2.2.2.2.1,
      (agentExecute_core _ _ _).2.2.2.2.2.2.2.2.2.2.2.2.1,
      (agentExecute_core _ _ _).2.2.2.2.2.2.2.2.2.2.2.2.2.1, _, rfl⟩

/-- `execute_primary_agent` records the primary in `consulted_agents`
exactly when it is not yet there. -/
theorem executePrimaryAgent_consulted (env : Env) (s : AgentState) :
    ((s.primary_agent.getD "" ∈ s.consulted_agents) ∧
      (executePrimaryAgent env s).consulted_agents = s.consulted_agents) ∨
    ((s.primary_agent.getD "" ∉ s.consulted_agents) ∧
      (executePrimaryAgent env s).consulted_agents =
        s.consulted_agents ++ [s.primary_agent.getD ""]) := by
  by_cases hmem : s.primary_agent.getD "" ∈ s.consulted_agents
  · refine Or.inl ⟨hmem, ?_⟩
    unfold executePrimaryAgent
    dsimp only
    rw [if_pos hmem]
    split_ifs <;> exact (agentExecute_core _ _ _).2.2.2.2.2.1
  · refine Or.inr ⟨hmem, ?_⟩
    unfold executePrimaryAgent
    dsimp only
    rw [if_neg hmem]
    split_ifs <;> exact (agentExecute_core _ _ _).2.2.2.2.2.1

/-- When the primary is the escalation responder and its external call does
not fault, `execute_primary_agent` returns with `escalation_required`
cleared (the responder clears it, and its own `should_escalate` is
constantly false). -/
theorem executePrimaryAgent_esc_flag (env : Env) (s : AgentState)
    (hp : s.primary_agent = some "escalation")
    (hf : env.fault "escalation" = false) :
    (executePrimaryAgent env s).escalation_required = false := by
  have hclear : ∀ s' : AgentState,
      ((agentExecute env "escalation" s').1).escalation_required = false := by
    intro s'
    unfold agentExecute
    rw [if_pos rfl]
    exact escalationExecute_clears env s' hf
  unfold executePrimaryAgent
  rw [hp]
  dsimp only
  split_ifs <;> first
    | exact hclear _
    | (rename_i hse; exact absurd hse (by simp [shouldEscalate]))

/-- `check_collaboration` can only assign `secondary_agents`. -/
theorem checkCollaboration_core (s : AgentState) :
    (checkCollaboration s).user_query = s.user_query ∧
    (checkCollaboration s).intent = s.intent ∧
    (checkCollaboration s).requires_collaboration =
      s.requires_collaboration ∧
    (checkCollaboration s).primary_agent = s.primary_agent ∧
    (checkCollaboration s).consulted_agents = s.consulted_agents ∧
    (checkCollaboration s).agent_handoffs = s.agent_handoffs ∧
    (checkCollaboration s).active_agent = s.active_agent ∧
    (checkCollaboration s).escalation_required = s.escalation_required ∧
    (checkCollaboration s).context = s.context ∧
    (checkCollaboration s).final_response = s.final_response ∧
    (checkCollaboration s).follow_up_options = s.follow_up_options ∧
    (checkCollaboration s).primary_response = s.primary_response ∧
    (checkCollaboration s).secondary_responses = s.secondary_responses ∧
    (checkCollaboration s).confidence_score = s.confidence_score := by
  unfold checkCollaboration
  split <;>
    exact ⟨rfl, rfl, rfl, rfl, rfl, rfl, rfl, rfl, rfl, rfl, rfl, rfl, rfl,
      rfl⟩

/-- With the collaboration flag set, `check_collaboration` polls the
secondaries. -/
theorem checkCollaboration_poll (s : AgentState)
    (h : s.requires_collaboration = true) :
    (checkCollaboration s).secondary_agents =
      secondaryPoll s (s.primary_agent.getD "") := by
  unfold checkCollaboration
  rw [if_pos h]

/-- `synthesize_response` only assigns the final text and the follow-ups. -/
theorem synthesizeResponse_core (s : AgentState) :
    (synthesizeResponse s).user_query = s.user_query ∧
    (synthesizeResponse s).intent = s.intent ∧
    (synthesizeResponse s).requires_collaboration =
      s.requires_collaboration ∧
    (synthesizeResponse s).primary_agent = s.primary_agent ∧
    (synthesizeResponse s).secondary_agents = s.secondary_agents ∧
    (synthesizeResponse s).consulted_agents = s.consulted_agents ∧
    (synthesizeResponse s).agent_handoffs = s.agent_handoffs ∧
    (synthesizeResponse s).active_agent = s.active_agent ∧
    (synthesizeResponse s).escalation_required = s.escalation_required ∧
    (synthesizeResponse s).context = s.context ∧
    (synthesizeResponse s).confidence_score = s.confidence_score ∧
    ∃ t, (synthesizeResponse s).final_response = some t := by
  exact ⟨rfl, rfl, rfl, rfl, rfl, rfl, rfl, rfl, rfl, rfl, rfl, _, rfl⟩

/-- Field effects of one secondary-loop iteration: the routed decision,
query, intent, collaboration flag, and response fields survive; the handoff
list gains exactly one record targeting the secondary; the consulted list
gains the secondary when absent. -/
theorem secondaryStep_core (env : Env) (nm : String) (s : AgentState) :
    ((secondaryStep env nm s).1).user_query = s.user_query ∧
    ((secondaryStep env nm s).1).intent = s.intent ∧
    ((secondaryStep env nm s).1).requires_collaboration =
      s.requires_collaboration ∧
    ((secondaryStep env nm s).1).primary_agent = s.primary_agent ∧
    ((secondaryStep env nm s).1).secondary_agents = s.secondary_agents ∧
    ((secondaryStep env nm s).1).context = s.context ∧
    ((secondaryStep env nm s).1).final_response = s.final_response ∧
    ((secondaryStep env nm s).1).follow_up_options = s.follow_up_options ∧
    ((secondaryStep env nm s).1).primary_response = s.primary_response ∧
    ((secondaryStep env nm s).1).confidence_score = s.confidence_score ∧
    ((secondaryStep env nm s).1).quote = s.quote ∧
    ((secondaryStep env nm s).1).agent_handoffs = s.agent_handoffs ++
      [(⟨(s.active_agent).getD "", nm,
         "Multi-domain query collaboration"⟩ : Handoff)] ∧
    ((secondaryStep env nm s).1).consulted_agents =
      (if nm ∈ s.consulted_agents then s.consulted_agents
       else s.consulted_agents ++ [nm]) := by
  unfold secondaryStep
  dsimp only
  exact ⟨(agentExecute_core _ _ _).1, (agentExecute_core _ _ _).2.1,
    (agentExecute_core _ _ _).2.2.1, (agentExecute_core _ _ _).2.2.2.1,
    (agentExecute_core _ _ _).2.2.2.2.1,
    (agentExecute_core _ _ _).2.2.2.2.2.2.2.2.1,
    (agentExecute_core _ _ _).2.2.2.2.2.2.2.2.2.1,
    (agentExecute_core _ _ _).2.2.2.2.2.2.2.2.2.2.1,
    (agentExecute_core _ _ _).2.2.2.2.2.2.2.2.2.2.2.1,
    (agentExecute_core _ _ _).2.2.2.2.2.2.2.2.2.2.2.2.2.1,
    (agentExecute_core _ _ _).2.2.2.2.2.2.2.2.2.2.2.2.2.2,
    (agentExecute_core _ _ _).2.2.2.2.2.2.1,
    (agentExecute_core _ _ _).2.2.2.2.2.1⟩

/-- One secondary-loop iteration on a non-escalation responder leaves
`escalation_required` unchanged. -/
theorem secondaryStep_flag (env : Env) (nm : String) (s : AgentState)
    (h : ¬nm = "escalation") :
    ((secondaryStep env nm s).1).escalation_required =
      s.escalation_required := by
  unfold secondaryStep
  dsimp only
  exact agentExecute_flag env nm _ h

/-- The secondary-execution loop does not touch the routed decision, the
query, the intent, the collaboration flag, or the response fields. -/
theorem execSecondariesGo_core (env : Env) :
    ∀ (names : List String) (s : AgentState) (acc : List (String × Response)),
      ((execSecondariesGo env names s acc).1).user_query = s.user_query ∧
      ((execSecondariesGo env names s acc).1).intent = s.intent ∧
      ((execSecondariesGo env names s acc).1).requires_collaboration =
        s.requires_collaboration ∧
      ((execSecondariesGo env names s acc).1).primary_agent =
        s.primary_agent ∧
      ((execSecondariesGo env names s acc).1).secondary_agents =
        s.secondary_agents ∧
      ((execSecondariesGo env names s acc).1).context = s.context ∧
      ((execSecondariesGo env names s acc).1).final_response =
        s.final_response ∧
      ((execSecondariesGo env names s acc).1).follow_up_options =
        s.follow_up_options ∧
      ((execSecondariesGo env names s acc).1).primary_response =
        s.primary_response ∧
      ((execSecondariesGo env names s acc).1).confidence_score =
        s.confidence_score ∧
      ((execSecondariesGo env names s acc).1).quote = s.quote := by
  intro names
  induction names with
  | nil =>
    intro s acc
    exact ⟨rfl, rfl, rfl, rfl, rfl, rfl, rfl, rfl, rfl, rfl, rfl⟩
  | cons nm rest ih =>
    intro s acc
    simp only [execSecondariesGo]
    exact ⟨(ih _ _).1.trans (secondaryStep_core _ _ _).1,
      (ih _ _).2.1.trans (secondaryStep_core _ _ _).2.1,
      (ih _ _).2.2.1.trans (secondaryStep_core _ _ _).2.2.1,
      (ih _ _).2.2.2.1.trans (secondaryStep_core _ _ _).2.2.2.1,
      (ih _ _).2.2.2.2.1.trans (secondaryStep_core _ _ _).2.2.2.2.1,
      (ih _ _).2.2.2.2.2.1.trans (secondaryStep_core _ _ _).2.2.2.2.2.1,
      (ih _ _).2.2.2.2.2.2.1.trans
        (secondaryStep_core _ _ _).2.2.2.2.2.2.1,
      (ih _ _).2.2.2.2.2.2.2.1.trans
        (secondaryStep_core _ _ _).2.2.2.2.2.2.2.1,
      (ih _ _).2.2.2.2.2.2.2.2.1.trans
        (secondaryStep_core _ _ _).2.2.2.2.2.2.2.2.1,
      (ih _ _).2.2.2.2.2.2.2.2.2.1.trans
        (secondaryStep_core _ _ _).2.2.2.2.2.2.2.2.2.1,
      (ih _ _).2.2.2.2.2.2.2.2.2.2.trans
        (secondaryStep_core _ _ _).2.2.2.2.2.2.2.2.2.2.1⟩

/-- The to-agent projection of the handoff list after the secondary loop is
the previous projection followed by exactly the executed names, in order. -/
theorem execSecondariesGo_handoffTos (env : Env) :
    ∀ (names : List String) (s : AgentState) (acc : List (String × Response)),
      ((execSecondariesGo env names s acc).1).agent_handoffs.map
          (fun h => h.to_agent) =
        s.agent_handoffs.map (fun h => h.to_agent) ++ names := by
  intro names
  induction names with
  | nil =>
    intro s acc
    simp [execSecondariesGo]
  | cons nm rest ih =>
    intro s acc
    simp only [execSecondariesGo]
    rw [ih, (secondaryStep_core env nm s).2.2.2.2.2.2.2.2.2.2.2.1]
    simp

/-- The secondary loop leaves `escalation_required` unchanged provided the
escalation responder is not among the executed names. -/
theorem execSecondariesGo_flag (env : Env) :
    ∀ (names : List String) (s : AgentState) (acc : List (String × Response)),
      (∀ nm ∈ names, ¬nm = "escalation") →
      ((execSecondariesGo env names s acc).1).escalation_required =
        s.escalation_required := by
  intro names
  induction names with
  | nil =>
    intro s acc _
    rfl
  | cons nm rest ih =>
    intro s acc h
    simp only [execSecondariesGo]
    rw [ih _ _ (fun x hx => h x (List.mem_cons_of_mem nm hx))]
    exact secondaryStep_flag env nm s (h nm (List.mem_cons_self nm rest))

/-- Consulted-list invariant through the secondary loop: no duplicates are
introduced, the list grows only by appending, and every handoff target
(including each executed secondary) ends up in it. -/
theorem execSecondariesGo_consulted (env : Env) :
    ∀ (names : List String) (s : AgentState) (acc : List (String × Response)),
      s.consulted_agents.Nodup →
      (∀ h ∈ s.agent_handoffs, h.to_agent ∈ s.consulted_agents) →
      ((execSecondariesGo env names s acc).1).consulted_agents.Nodup ∧
      (∀ h ∈ ((execSecondariesGo env names s acc).1).agent_handoffs,
        h.to_agent ∈
          ((execSecondariesGo env names s acc).1).consulted_agents) ∧
      (∃ t, ((execSecondariesGo env names s acc).1).consulted_agents =
        s.consulted_agents ++ t) := by
  intro names
  induction names with
  | nil =>
    intro s acc hnd hho
    exact ⟨hnd, hho, [], (List.append_nil _).symm⟩
  | cons nm rest ih =>
    intro s acc hnd hho
    simp only [execSecondariesGo]
    have hcons := (secondaryStep_core env nm s).2.2.2.2.2.2.2.2.2.2.2.2
    have hhand := (secondaryStep_core env nm s).2.2.2.2.2.2.2.2.2.2.2.1
    have hnd2 : ((secondaryStep env nm s).1).consulted_agents.Nodup := by
      rw [hcons]
      split
      · exact hnd
      · rename_i hmem
        rw [List.nodup_append]
        exact ⟨hnd, List.nodup_singleton nm,
          fun x hx hx2 => hmem ((List.mem_singleton.1 hx2) ▸ hx)⟩
    have hsub : ∀ x ∈ s.consulted_agents,
        x ∈ ((secondaryStep env nm s).1).consulted_agents := by
      intro x hx
      rw [hcons]
      split
      · exact hx
      · exact List.mem_append_left _ hx
    have hho2 : ∀ h ∈ ((secondaryStep env nm s).1).agent_handoffs,
        h.to_agent ∈ ((secondaryStep env nm s).1).consulted_agents := by
      intro h hh
      rw [hhand] at hh
      rcases List.mem_append.1 hh with hold | hnew
      · exact hsub _ (hho h hold)
      · rw [List.mem_singleton.1 hnew]
        rw [hcons]
        split
        · rename_i hmem
          exact hmem
        · exact List.mem_append_right _ (List.mem_singleton.2 rfl)
    obtain ⟨hnd3, hho3, t, ht⟩ := ih ((secondaryStep env nm s).1) _ hnd2 hho2
    refine ⟨hnd3, hho3, ?_⟩
    rw [ht, hcons]
    split
    · exact ⟨t, rfl⟩
    · exact ⟨[nm] ++ t, by rw [List.append_assoc]⟩

/-! ## Lemmas about one full pass and the escalation loop -/

/-- A pass never changes the query, the intent, the collaboration flag, or
the turn context. -/
theorem onePass_keeps (env : Env) (s : AgentState) :
    (onePass env s).user_query = s.user_query ∧
    (onePass env s).intent = s.intent ∧
    (onePass env s).requires_collaboration = s.requires_collaboration ∧
    (onePass env s).context = s.context := by
  have h1 := routeToAgentWith_core canHandle s
  have h2 := executePrimaryAgent_core env (routeToAgent s)
  have h3 := checkCollaboration_core (executePrimaryAgent env (routeToAgent s))
  have h4 := execSecondariesGo_core env
    (checkCollaboration (executePrimaryAgent env (routeToAgent s))).secondary_agents
    (checkCollaboration (executePrimaryAgent env (routeToAgent s))) []
  have h5 := synthesizeResponse_core
    (executeSecondaryAgents env
      (checkCollaboration (executePrimaryAgent env (routeToAgent s))))
  unfold onePass
  dsimp only
  split
  · exact ⟨h5.1.trans (h4.1.trans (h3.1.trans (h2.1.trans h1.1))),
      h5.2.1.trans (h4.2.1.trans (h3.2.1.trans (h2.2.1.trans h1.2.1))),
      h5.2.2.1.trans (h4.2.2.1.trans (h3.2.2.1.trans (h2.2.2.1.trans h1.2.2.1))),
      (h5.2.2.2.2.2.2.2.2.2.1).trans
        ((h4.2.2.2.2.2.1).trans
          ((h3.2.2.2.2.2.2.2.2.1).trans
            ((h2.2.2.2.2.2.2.2.1).trans h1.2.2.2.2.2.2.2.1)))⟩
  · exact ⟨h3.1.trans (h2.1.trans h1.1),
      h3.2.1.trans (h2.2.1.trans h1.2.1),
      h3.2.2.1.trans (h2.2.2.1.trans h1.2.2.1),
      (h3.2.2.2.2.2.2.2.2.1).trans
        ((h2.2.2.2.2.2.2.2.1).trans h1.2.2.2.2.2.2.2.1)⟩

/-- Every pass ends with a final response text present. -/
theorem onePass_final (env : Env) (s : AgentState) :
    ∃ t, (onePass env s).final_response = some t := by
  unfold onePass
  dsimp only
  split
  · exact (synthesizeResponse_core _).2.2.2.2.2.2.2.2.2.2.2
  · obtain ⟨t, ht⟩ := (executePrimaryAgent_core env (routeToAgent s)).2.2.2.2.2.2.2.2.2.2
    exact ⟨t, ((checkCollaboration_core _).2.2.2.2.2.2.2.2.2.1).trans ht⟩

/-- The secondary list a pass reports is the one `check_collaboration`
computed in that pass. -/
theorem onePass_secondary_eq (env : Env) (s : AgentState) :
    (onePass env s).secondary_agents =
      (checkCollaboration
        (executePrimaryAgent env (routeToAgent s))).secondary_agents := by
  unfold onePass
  dsimp only
  split
  · exact (synthesizeResponse_core _).2.2.2.2.1.trans
      (execSecondariesGo_core env _ _ _).2.2.2.2.1
  · rfl

/-- When the collaboration flag is up and the poll is non-empty, the pass
runs the full secondary/synthesis branch. -/
theorem onePass_collab_run (env : Env) (s : AgentState)
    (hcol : s.requires_collaboration = true)
    (hne : ¬(checkCollaboration
      (executePrimaryAgent env (routeToAgent s))).secondary_agents = []) :
    onePass env s =
      checkEscalation (synthesizeResponse (executeSecondaryAgents env
        (checkCollaboration (executePrimaryAgent env (routeToAgent s))))) := by
  have hr : (routeToAgent s).requires_collaboration =
      s.requires_collaboration :=
    (routeToAgentWith_core canHandle s).2.2.1
  unfold onePass
  dsimp only
  rw [if_pos]
  unfold shouldCollaborate
  rw [(checkCollaboration_core _).2.2.1,
    (executePrimaryAgent_core env _).2.2.1, hr, hcol]
  simp [List.isEmpty_iff, hne]

/-- The consulted-agents invariant is preserved by a pass, which moreover
records the pass's primary. -/
theorem onePass_inv (env : Env) (s : AgentState)
    (hnd : s.consulted_agents.Nodup)
    (hho : ∀ h ∈ s.agent_handoffs, h.to_agent ∈ s.consulted_agents) :
    (onePass env s).consulted_agents.Nodup ∧
    (∀ h ∈ (onePass env s).agent_handoffs,
      h.to_agent ∈ (onePass env s).consulted_agents) ∧
    (∃ p, (onePass env s).primary_agent = some p ∧
      p ∈ (onePass env s).consulted_agents) ∧
    (∃ t, (onePass env s).consulted_agents = s.consulted_agents ++ t) := by
  have hexa : ∃ a, (routeToAgent s).primary_agent = some a :=
    (routeToAgentWith_core canHandle s).2.2.2.2.2.2.2.2.2.2.2.2.2.2
  obtain ⟨a, ha⟩ := hexa
  have hrc : (routeToAgent s).consulted_agents = s.consulted_agents :=
    (routeToAgentWith_core canHandle s).2.2.2.2.1
  have hrh : (routeToAgent s).agent_handoffs = s.agent_handoffs :=
    (routeToAgentWith_core canHandle s).2.2.2.2.2.1
  -- state after primary execution
  have hpp : (executePrimaryAgent env (routeToAgent s)).primary_agent =
      some a := (executePrimaryAgent_core env _).2.2.2.1.trans ha
  have hph : (executePrimaryAgent env (routeToAgent s)).agent_handoffs =
      s.agent_handoffs := (executePrimaryAgent_core env _).2.2.2.2.2.1.trans hrh
  have hname : (routeToAgent s).primary_agent.getD "" = a := by rw [ha]; rfl
  have hpc : ((executePrimaryAgent env (routeToAgent s)).consulted_agents =
        s.consulted_agents ∧ a ∈ s.consulted_agents) ∨
      ((executePrimaryAgent env (routeToAgent s)).consulted_agents =
        s.consulted_agents ++ [a] ∧ a ∉ s.consulted_agents) := by
    rcases executePrimaryAgent_consulted env (routeToAgent s) with ⟨hm, he⟩ | ⟨hm, he⟩
    · exact Or.inl ⟨he.trans hrc, by rw [hname, hrc] at hm; exact hm⟩
    · refine Or.inr ⟨?_, by rw [hname, hrc] at hm; exact hm⟩
      rw [he, hname, hrc]
  have hnd2 : (executePrimaryAgent env (routeToAgent s)).consulted_agents.Nodup := by
    rcases hpc with ⟨he, _⟩ | ⟨he, hm⟩
    · rw [he]; exact hnd
    · rw [he, List.nodup_append]
      exact ⟨hnd, List.nodup_singleton a,
        fun x hx hx2 => hm ((List.mem_singleton.1 hx2) ▸ hx)⟩
  have hmono : ∀ x ∈ s.consulted_agents,
      x ∈ (executePrimaryAgent env (routeToAgent s)).consulted_agents := by
    intro x hx
    rcases hpc with ⟨he, _⟩ | ⟨he, _⟩
    · rw [he]; exact hx
    · rw [he]; exact List.mem_append_left _ hx
  have hamem : a ∈ (executePrimaryAgent env (routeToAgent s)).consulted_agents := by
    rcases hpc with ⟨he, hm⟩ | ⟨he, _⟩
    · rw [he]; exact hm
    · rw [he]; exact List.mem_append_right _ (List.mem_singleton.2 rfl)
  have hho2 : ∀ h ∈ (executePrimaryAgent env (routeToAgent s)).agent_handoffs,
      h.to_agent ∈ (executePrimaryAgent env (routeToAgent s)).consulted_agents := by
    intro h hh
    rw [hph] at hh
    exact hmono _ (hho h hh)
  have hpre2 : ∃ t, (executePrimaryAgent env (routeToAgent s)).consulted_agents =
      s.consulted_agents ++ t := by
    rcases hpc with ⟨he, _⟩ | ⟨he, _⟩
    · exact ⟨[], by rw [he, List.append_nil]⟩
    · exact ⟨[a], he⟩
  -- state after check_collaboration
  have hcc := checkCollaboration_core (executePrimaryAgent env (routeToAgent s))
  unfold onePass checkEscalation
  dsimp only
  split
  · -- secondary branch
    obtain ⟨hnd4, hho4, t4, ht4⟩ := execSecondariesGo_consulted env
      (checkCollaboration (executePrimaryAgent env (routeToAgent s))).secondary_agents
      (checkCollaboration (executePrimaryAgent env (routeToAgent s))) []
      (by rw [hcc.2.2.2.2.1]; exact hnd2)
      (by
        intro h hh
        rw [hcc.2.2.2.2.2.1] at hh
        rw [hcc.2.2.2.2.1]
        exact hho2 h hh)
    have hs5 := synthesizeResponse_core
      (executeSecondaryAgents env
        (checkCollaboration (executePrimaryAgent env (routeToAgent s))))
    have hsc : (executeSecondaryAgents env
        (checkCollaboration
          (executePrimaryAgent env (routeToAgent s)))).consulted_agents =
        (checkCollaboration
          (executePrimaryAgent env (routeToAgent s))).consulted_agents ++ t4 :=
      ht4
    have hsp : (executeSecondaryAgents env
        (checkCollaboration
          (executePrimaryAgent env (routeToAgent s)))).primary_agent =
        (checkCollaboration
          (executePrimaryAgent env (routeToAgent s))).primary_agent :=
      (execSecondariesGo_core env _ _ _).2.2.2.1
    refine ⟨?_, ?_, ?_, ?_⟩
    · rw [hs5.2.2.2.2.2.1]
      exact hnd4
    · intro h hh
      rw [hs5.2.2.2.2.2.2.1] at hh
      rw [hs5.2.2.2.2.2.1]
      exact hho4 h hh
    · refine ⟨a, ?_, ?_⟩
      · rw [hs5.2.2.2.1, hsp, hcc.2.2.2.1, hpp]
      · rw [hs5.2.2.2.2.2.1, hsc, hcc.2.2.2.2.1]
        exact List.mem_append_left _ hamem
    · obtain ⟨t2, ht2⟩ := hpre2
      refine ⟨t2 ++ t4, ?_⟩
      rw [hs5.2.2.2.2.2.1, hsc, hcc.2.2.2.2.1, ht2, List.append_assoc]
  · -- no-collaboration branch
    refine ⟨?_, ?_, ?_, ?_⟩
    · rw [hcc.2.2.2.2.1]; exact hnd2
    · intro h hh
      rw [hcc.2.2.2.2.2.1] at hh
      rw [hcc.2.2.2.2.1]
      exact hho2 h hh
    · exact ⟨a, hcc.2.2.2.1.trans hpp, by rw [hcc.2.2.2.2.1]; exact hamem⟩
    · obtain ⟨t2, ht2⟩ := hpre2
      exact ⟨t2, by rw [hcc.2.2.2.2.1]; exact ht2⟩

/-- Running the loop with at least one unit of budget lands on the output
of some pass: any property of all pass outputs (relative to a preserved
precondition) holds of the loop's result. -/
theorem turnLoop_run (env : Env) (P Q : AgentState → Prop)
    (hstep : ∀ s, P s → P (onePass env s) ∧ Q (onePass env s)) :
    ∀ (n : Nat) (s : AgentState), P s →
      P (turnLoop env (n + 1) s) ∧ Q (turnLoop env (n + 1) s) := by
  intro n
  induction n with
  | zero =>
    intro s hp
    have heq : turnLoop env 1 s =
        if needsEscalation (onePass env s) then onePass env s
        else onePass env s := rfl
    rw [heq, ite_self]
    exact hstep s hp
  | succ n ih =>
    intro s hp
    have heq : turnLoop env (n + 1 + 1) s =
        if needsEscalation (onePass env s) then
          turnLoop env (n + 1) (onePass env s)
        else onePass env s := rfl
    rw [heq]
    split
    · exact ih (onePass env s) (hstep s hp).1
    · exact hstep s hp

/-- C5 counterexample: the orchestration boundary does not record a caught
fault as the turn's error marker.  The `except` handler of
`process_message` only logs: it returns the same fixed fallback for every
fault — two distinct faults produce identical responses, equal to the
constant `fallbackResponse`, which (like the success-path response
dictionary) carries no error field at all, and the turn state that holds
the `error` marker is discarded. -/
theorem process_message_no_marker_counterexample :
    processMessage envOk 1 [⟨true, "hi"⟩] [] (some "fault-A") =
      processMessage envOk 1 [⟨true, "hi"⟩] [] (some "fault-B") ∧
    processMessage envOk 1 [⟨true, "hi"⟩] [] (some "fault-A") =
      fallbackResponse [] :=
  ⟨rfl, rfl⟩

/-- C5 amended: processing a turn is total and never propagates a fault:
any crash escaping the workflow is caught at the orchestration boundary
and converted into the fixed fallback response (generic apology,
"Try again"/"Contact support" suggestions, `error_handler` as active
agent, caller's context preserved) — the fault itself is only logged, not
recorded in the turn's error marker; on the success path the response is
assembled field-by-field from the final state, and with any positive step
budget it carries a final response text. -/
theorem process_message_never_fails (env : Env) (fuel : Nat)
    (messages : List ChatMessage) (ctx : List (String × String)) :
    (∀ e, processMessage env fuel messages ctx (some e) =
      fallbackResponse ctx) ∧
    ((fallbackResponse ctx).text =
      some "I apologize, but I encountered an error processing your request. Please try again or contact support." ∧
     (fallbackResponse ctx).follow_up_options = ["Try again", "Contact support"] ∧
     (fallbackResponse ctx).active_agent = some "error_handler" ∧
     (fallbackResponse ctx).context = ctx) ∧
    (processMessage env fuel messages ctx none =
      formatResponse
        (runWorkflow env fuel (mkInitialState (extractUserQuery messages) ctx))) ∧
    (1 ≤ fuel →
      ∃ t, (processMessage env fuel messages ctx none).text = some t) := by
  refine ⟨fun e => rfl, ⟨rfl, rfl, rfl, rfl⟩, rfl, ?_⟩
  intro hfuel
  obtain ⟨n, rfl⟩ : ∃ n, fuel = n + 1 := ⟨fuel - 1, by omega⟩
  have := turnLoop_run env (fun _ => True)
    (fun t => ∃ x, t.final_response = some x)
    (fun s _ => ⟨trivial, onePass_final env s⟩) n
    (classifyIntentNode (mkInitialState (extractUserQuery messages) ctx))
    trivial
  exact this.2

/-- Witness for C5 on a concrete crash and a concrete one-pass run. -/
theorem process_message_never_fails_witness :
    processMessage envOk 1 [⟨true, "hello"⟩] [] (some "boom") =
      fallbackResponse [] ∧
    (∃ t, (processMessage envOk 1 [⟨true, "hello"⟩] [] none).text = some t) :=
  ⟨(process_message_never_fails envOk 1 [⟨true, "hello"⟩] []).1 "boom",
   (process_message_never_fails envOk 1 [⟨true, "hello"⟩] []).2.2.2
     (by decide)⟩

/-- The secondary loop only ever appends to the consulted list
(no hypotheses needed). -/
theorem execSecondariesGo_appends (env : Env) :
    ∀ (names : List String) (s : AgentState) (acc : List (String × Response)),
      ∃ t, ((execSecondariesGo env names s acc).1).consulted_agents =
        s.consulted_agents ++ t := by
  intro names
  induction names with
  | nil =>
    intro s acc
    exact ⟨[], (List.append_nil _).symm⟩
  | cons nm rest ih =>
    intro s acc
    simp only [execSecondariesGo]
    obtain ⟨t, ht⟩ := ih ((secondaryStep env nm s).1)
      (acc ++ [(nm, (secondaryStep env nm s).2)])
    rw [ht, (secondaryStep_core env nm s).2.2.2.2.2.2.2.2.2.2.2.2]
    split
    · exact ⟨t, rfl⟩
    · exact ⟨[nm] ++ t, by rw [List.append_assoc]⟩

/-- C9: the consulted-agents list never acquires duplicates, every workflow
node grows it only by appending (preserving insertion order), and at the
end of any run with a positive step budget it contains the primary agent
and the target of every handoff — i.e. every secondary that was actually
executed. -/
theorem consulted_agents_invariant :
    (∀ s : AgentState, ∃ t,
      (classifyIntentNode s).consulted_agents = s.consulted_agents ++ t) ∧
    (∀ s : AgentState, ∃ t,
      (routeToAgent s).consulted_agents = s.consulted_agents ++ t) ∧
    (∀ (env : Env) (s : AgentState), ∃ t,
      (executePrimaryAgent env s).consulted_agents =
        s.consulted_agents ++ t) ∧
    (∀ s : AgentState, ∃ t,
      (checkCollaboration s).consulted_agents = s.consulted_agents ++ t) ∧
    (∀ (env : Env) (s : AgentState), ∃ t,
      (executeSecondaryAgents env s).consulted_agents =
        s.consulted_agents ++ t) ∧
    (∀ s : AgentState, ∃ t,
      (synthesizeResponse s).consulted_agents = s.consulted_agents ++ t) ∧
    (∀ s : AgentState, ∃ t,
      (checkEscalation s).consulted_agents = s.consulted_agents ++ t) ∧
    (∀ (env : Env) (fuel : Nat) (q : String) (ctx : List (String × String)),
      1 ≤ fuel →
      (runWorkflow env fuel (mkInitialState q ctx)).consulted_agents.Nodup ∧
      (∃ p, (runWorkflow env fuel (mkInitialState q ctx)).primary_agent =
          some p ∧
        p ∈ (runWorkflow env fuel (mkInitialState q ctx)).consulted_agents) ∧
      (∀ h ∈ (runWorkflow env fuel (mkInitialState q ctx)).agent_handoffs,
        h.to_agent ∈
          (runWorkflow env fuel (mkInitialState q ctx)).consulted_agents)) := by
  refine ⟨fun s => ⟨[], by simp [classifyIntentNode]⟩,
    fun s => ⟨[], by
      have h : (routeToAgent s).consulted_agents = s.consulted_agents :=
        (routeToAgentWith_core canHandle s).2.2.2.2.1
      rw [h]
      simp⟩,
    ?_, fun s => ⟨[], by rw [(checkCollaboration_core s).2.2.2.2.1]; simp⟩,
    ?_, fun s => ⟨[], by rw [(synthesizeResponse_core s).2.2.2.2.2.1]; simp⟩,
    fun s => ⟨[], by simp [checkEscalation]⟩, ?_⟩
  · intro env s
    rcases executePrimaryAgent_consulted env s with ⟨_, he⟩ | ⟨_, he⟩
    · exact ⟨[], by rw [he]; simp⟩
    · exact ⟨[s.primary_agent.getD ""], he⟩
  · intro env s
    obtain ⟨t, ht⟩ := execSecondariesGo_appends env s.secondary_agents s []
    exact ⟨t, ht⟩
  · intro env fuel q ctx hfuel
    obtain ⟨n, rfl⟩ : ∃ n, fuel = n + 1 := ⟨fuel - 1, by omega⟩
    have hrun := turnLoop_run env
      (fun t => t.consulted_agents.Nodup ∧
        ∀ h ∈ t.agent_handoffs, h.to_agent ∈ t.consulted_agents)
      (fun t => ∃ p, t.primary_agent = some p ∧ p ∈ t.consulted_agents)
      (fun s hs =>
        have hinv := onePass_inv env s hs.1 hs.2
        ⟨⟨hinv.1, hinv.2.1⟩, hinv.2.2.1⟩)
      n (classifyIntentNode (mkInitialState q ctx))
      ⟨List.nodup_nil, by intro h hh; cases hh⟩
    exact ⟨hrun.1.1, hrun.2, hrun.1.2⟩

/-- Witness for C9 on a concrete one-pass run. -/
theorem consulted_agents_invariant_witness :
    (1 : Nat) ≤ 1 ∧
    ((runWorkflow envOk 1 (mkInitialState "hello" [])).consulted_agents.Nodup ∧
     (∃ p, (runWorkflow envOk 1 (mkInitialState "hello" [])).primary_agent =
         some p ∧
       p ∈ (runWorkflow envOk 1 (mkInitialState "hello" [])).consulted_agents) ∧
     (∀ h ∈ (runWorkflow envOk 1 (mkInitialState "hello" [])).agent_handoffs,
       h.to_agent ∈
         (runWorkflow envOk 1 (mkInitialState "hello" [])).consulted_agents)) :=
  ⟨by decide,
   consulted_agents_invariant.2.2.2.2.2.2.2 envOk 1 "hello" [] (by decide)⟩

/-- Handoff-target bookkeeping of the `execute_secondary_agents` node. -/
theorem executeSecondaryAgents_handoffTos (env : Env) (s : AgentState) :
    (executeSecondaryAgents env s).agent_handoffs.map (fun h => h.to_agent) =
      s.agent_handoffs.map (fun h => h.to_agent) ++ s.secondary_agents := by
  unfold executeSecondaryAgents
  dsimp only
  exact execSecondariesGo_handoffTos env s.secondary_agents s []

/-- The `execute_secondary_agents` node leaves `escalation_required`
unchanged when no secondary is the escalation responder. -/
theorem executeSecondaryAgents_flag (env : Env) (s : AgentState)
    (h : ∀ nm ∈ s.secondary_agents, ¬nm = "escalation") :
    (executeSecondaryAgents env s).escalation_required =
      s.escalation_required := by
  unfold executeSecondaryAgents
  dsimp only
  exact execSecondariesGo_flag env s.secondary_agents s [] h

/-! ## Helpers for the escalation re-route pass (C10) -/

/-- A query mentioning at least two domains classifies as `multi_domain`
with the collaboration flag raised. -/
theorem classify_multi (s : AgentState)
    (hm : 2 ≤ domainsMentioned (lowerStr s.user_query)) :
    classifyIntentNode s =
      { s with intent := some "multi_domain",
               requires_collaboration := true } := by
  unfold classifyIntentNode classifyQuery
  dsimp only
  rw [if_pos hm]
  simp

/-- A domain responder's `can_handle` ignores the escalation flag. -/
theorem canHandleQI_escReq_irrel (nm lq intent : String) (e e2 : Bool)
    (h : ¬nm = "escalation") :
    canHandleQI nm lq intent e = canHandleQI nm lq intent e2 := by
  unfold canHandleQI
  split_ifs <;> rfl

/-- The secondary poll never returns duplicates (the registry is scanned
once, in order). -/
theorem secondaryPoll_nodup (s : AgentState) (p : String) :
    (secondaryPoll s p).Nodup :=
  List.Nodup.filter _ (by decide)

/-- The escalation responder is never polled as a secondary. -/
theorem secondaryPoll_ne_esc (s : AgentState) (p : String) :
    ∀ x ∈ secondaryPoll s p, ¬x = "escalation" := by
  intro x hx
  unfold secondaryPoll at hx
  rw [List.mem_filter] at hx
  have h2 := hx.2
  simp only [Bool.and_eq_true, bne_iff_ne] at h2
  exact h2.1.1.2

/-- A responder that qualified as a secondary against primary `p` also
qualifies on the escalation re-route pass, at any state with the same query
and intent. -/
theorem secondaryPoll_mem_escalation (s t : AgentState) (p a : String)
    (hq : t.user_query = s.user_query) (hi : t.intent = s.intent)
    (ha : a ∈ secondaryPoll s p) : a ∈ secondaryPoll t "escalation" := by
  unfold secondaryPoll at ha ⊢
  rw [List.mem_filter] at ha ⊢
  obtain ⟨hmem, hcond⟩ := ha
  simp only [Bool.and_eq_true, bne_iff_ne] at hcond
  obtain ⟨⟨⟨hnp, hnesc⟩, hch⟩, hconf⟩ := hcond
  have hcan : canHandle a t = canHandle a s := by
    unfold canHandle
    rw [hq, hi]
    exact canHandleQI_escReq_irrel a (lowerStr s.user_query)
      ((s.intent).getD "") t.escalation_required s.escalation_required hnesc
  refine ⟨hmem, ?_⟩
  simp only [Bool.and_eq_true, bne_iff_ne]
  exact ⟨⟨⟨hnesc, hnesc⟩, by rw [hcan]; exact hch⟩, by rw [hcan]; exact hconf⟩

set_option maxHeartbeats 1600000 in
/-- C10: on a multi-domain turn whose first pass ends with
`escalation_required` set and a non-empty secondary set, the re-route pass
runs the whole route → execute-primary → check-collaboration → secondaries
pipeline again: the run is exactly two passes, every first-pass secondary
is polled into the second pass's secondary set (so it executes a second
time), and the handoff list ends with two records targeting each first-pass
secondary — one per pass. -/
theorem escalation_pass_reruns_secondaries
    (env : Env) (q : String) (ctx : List (String × String)) (a : String)
    (fuel : Nat)
    (hm : 2 ≤ domainsMentioned (lowerStr q))
    (hS : a ∈ (onePass env
      (classifyIntentNode (mkInitialState q ctx))).secondary_agents)
    (hesc : (onePass env
      (classifyIntentNode (mkInitialState q ctx))).escalation_required = true)
    (hf : env.fault "escalation" = false)
    (hfuel : 2 ≤ fuel) :
    runWorkflow env fuel (mkInitialState q ctx) =
      onePass env (onePass env (classifyIntentNode (mkInitialState q ctx))) ∧
    a ∈ (onePass env (onePass env (classifyIntentNode
      (mkInitialState q ctx)))).secondary_agents ∧
    ((onePass env (classifyIntentNode
        (mkInitialState q ctx))).agent_handoffs.map
      (fun h => h.to_agent)).count a = 1 ∧
    ((onePass env (onePass env (classifyIntentNode
        (mkInitialState q ctx)))).agent_handoffs.map
      (fun h => h.to_agent)).count a = 2 := by
  set s0 := mkInitialState q ctx with hs0
  set sC := classifyIntentNode s0 with hsC
  set s1 := onePass env sC with hs1
  set s2 := onePass env s1 with hs2
  -- classified state
  have hCrec : sC = { s0 with
      intent := some "multi_domain", requires_collaboration := true } := by
    rw [hsC]
    exact classify_multi s0 hm
  have hCq : sC.user_query = q := by rw [hCrec]; rfl
  have hCi : sC.intent = some "multi_domain" := by rw [hCrec]
  have hCcol : sC.requires_collaboration = true := by rw [hCrec]
  have hCho : sC.agent_handoffs = [] := by rw [hCrec]; rfl

  -- pass 1: the state at check_collaboration
  have hX1q : (executePrimaryAgent env (routeToAgent sC)).user_query = q :=
    ((executePrimaryAgent_core env (routeToAgent sC)).1.trans
      (routeToAgentWith_core canHandle sC).1).trans hCq
  have hX1i : (executePrimaryAgent env (routeToAgent sC)).intent =
      some "multi_domain" :=
    ((executePrimaryAgent_core env (routeToAgent sC)).2.1.trans
      (routeToAgentWith_core canHandle sC).2.1).trans hCi
  have hX1col : (executePrimaryAgent env
      (routeToAgent sC)).requires_collaboration = true :=
    ((executePrimaryAgent_core env (routeToAgent sC)).2.2.1.trans
      (routeToAgentWith_core canHandle sC).2.2.1).trans hCcol
  have hX1ho : (executePrimaryAgent env (routeToAgent sC)).agent_handoffs =
      [] :=
    ((executePrimaryAgent_core env (routeToAgent sC)).2.2.2.2.2.1.trans
      (routeToAgentWith_core canHandle sC).2.2.2.2.2.1).trans hCho
  have hsec1 : s1.secondary_agents =
      secondaryPoll (executePrimaryAgent env (routeToAgent sC))
        ((executePrimaryAgent env
          (routeToAgent sC)).primary_agent.getD "") := by
    rw [hs1, onePass_secondary_eq env sC,
      checkCollaboration_poll _ hX1col]
  have hamem1 : a ∈ secondaryPoll (executePrimaryAgent env (routeToAgent sC))
      ((executePrimaryAgent env (routeToAgent sC)).primary_agent.getD "") := by
    rw [← hsec1]
    exact hS
  have hne1 : ¬(checkCollaboration
      (executePrimaryAgent env (routeToAgent sC))).secondary_agents = [] := by
    rw [checkCollaboration_poll _ hX1col]
    intro hnil
    rw [hnil] at hamem1
    cases hamem1
  have hrun1 : onePass env sC =
      checkEscalation (synthesizeResponse (executeSecondaryAgents env
        (checkCollaboration
          (executePrimaryAgent env (routeToAgent sC))))) :=
    onePass_collab_run env sC hCcol hne1
  -- pass-1 handoff targets
  have hh1 : s1.agent_handoffs.map (fun h => h.to_agent) =
      (checkCollaboration
        (executePrimaryAgent env (routeToAgent sC))).secondary_agents := by
    rw [hs1, hrun1]
    show (synthesizeResponse _).agent_handoffs.map (fun h => h.to_agent) = _
    rw [(synthesizeResponse_core _).2.2.2.2.2.2.1,
      executeSecondaryAgents_handoffTos env
        (checkCollaboration (executePrimaryAgent env (routeToAgent sC))),
      (checkCollaboration_core _).2.2.2.2.2.1, hX1ho]
    simp
  have hcount1 : (s1.agent_handoffs.map (fun h => h.to_agent)).count a = 1 := by
    rw [hh1, checkCollaboration_poll _ hX1col]
    exact List.count_eq_one_of_mem (secondaryPoll_nodup _ _) hamem1
  -- pass 2
  have hroute2 : routeToAgent s1 =
      { s1 with primary_agent := some "escalation",
                active_agent := some "escalation" } :=
    routeToAgent_flagged s1 hesc
  have hX2p : (executePrimaryAgent env (routeToAgent s1)).primary_agent =
      some "escalation" := by
    rw [(executePrimaryAgent_core env (routeToAgent s1)).2.2.2.1, hroute2]
  have h1keeps := onePass_keeps env sC
  have hs1q : s1.user_query = q := by
    rw [hs1, h1keeps.1]
    exact hCq
  have hs1i : s1.intent = some "multi_domain" := by
    rw [hs1, h1keeps.2.1]
    exact hCi
  have hs1col : s1.requires_collaboration = true := by
    rw [hs1, h1keeps.2.2.1]
    exact hCcol
  have hX2q : (executePrimaryAgent env (routeToAgent s1)).user_query = q :=
    ((executePrimaryAgent_core env (routeToAgent s1)).1.trans
      (routeToAgentWith_core canHandle s1).1).trans hs1q
  have hX2i : (executePrimaryAgent env (routeToAgent s1)).intent =
      some "multi_domain" :=
    ((executePrimaryAgent_core env (routeToAgent s1)).2.1.trans
      (routeToAgentWith_core canHandle s1).2.1).trans hs1i
  have hX2col : (executePrimaryAgent env
      (routeToAgent s1)).requires_collaboration = true :=
    ((executePrimaryAgent_core env (routeToAgent s1)).2.2.1.trans
      (routeToAgentWith_core canHandle s1).2.2.1).trans hs1col
  have hX2flag : (executePrimaryAgent env
      (routeToAgent s1)).escalation_required = false :=
    executePrimaryAgent_esc_flag env (routeToAgent s1) (by rw [hroute2]) hf
  have hgetD2 : (executePrimaryAgent env
      (routeToAgent s1)).primary_agent.getD "" = "escalation" := by
    rw [hX2p]
    rfl
  have hamem2 : a ∈ secondaryPoll (executePrimaryAgent env (routeToAgent s1))
      "escalation" :=
    secondaryPoll_mem_escalation
      (executePrimaryAgent env (routeToAgent sC))
      (executePrimaryAgent env (routeToAgent s1))
      ((executePrimaryAgent env (routeToAgent sC)).primary_agent.getD "") a
      (hX2q.trans hX1q.symm) (hX2i.trans hX1i.symm) hamem1
  have hS2eq : (checkCollaboration
      (executePrimaryAgent env (routeToAgent s1))).secondary_agents =
      secondaryPoll (executePrimaryAgent env (routeToAgent s1))
        "escalation" := by
    rw [checkCollaboration_poll _ hX2col, hgetD2]
  have hne2 : ¬(checkCollaboration
      (executePrimaryAgent env (routeToAgent s1))).secondary_agents = [] := by
    rw [hS2eq]
    intro hnil
    rw [hnil] at hamem2
    cases hamem2
  have hrun2 : onePass env s1 =
      checkEscalation (synthesizeResponse (executeSecondaryAgents env
        (checkCollaboration
          (executePrimaryAgent env (routeToAgent s1))))) :=
    onePass_collab_run env s1 hs1col hne2
  have hmem2' : a ∈ s2.secondary_agents := by
    rw [hs2, onePass_secondary_eq env s1, hS2eq]
    exact hamem2
  -- flag cleared on the second pass
  have hflag2 : s2.escalation_required = false := by
    rw [hs2, hrun2]
    show (synthesizeResponse _).escalation_required = false
    rw [(synthesizeResponse_core _).2.2.2.2.2.2.2.2.1]
    have hgo : (executeSecondaryAgents env
        (checkCollaboration
          (executePrimaryAgent env (routeToAgent s1)))).escalation_required =
        (checkCollaboration
          (executePrimaryAgent env (routeToAgent s1))).escalation_required := by
      refine executeSecondaryAgents_flag env
        (checkCollaboration (executePrimaryAgent env (routeToAgent s1))) ?_
      intro x hx
      rw [hS2eq] at hx
      exact secondaryPoll_ne_esc _ _ x hx
    rw [hgo, (checkCollaboration_core _).2.2.2.2.2.2.2.1]
    exact hX2flag
  -- the run is exactly two passes
  obtain ⟨n, rfl⟩ : ∃ n, fuel = n + 2 := ⟨fuel - 2, by omega⟩
  have hfin : runWorkflow env (n + 2) s0 = s2 := by
    unfold runWorkflow
    rw [← hsC]
    have e1 : turnLoop env (n + 1 + 1) sC =
        if needsEscalation (onePass env sC) then
          turnLoop env (n + 1) (onePass env sC)
        else onePass env sC := rfl
    rw [e1, if_pos (show needsEscalation (onePass env sC) = true from hesc)]
    have e2 : turnLoop env (n + 1) s1 =
        if needsEscalation (onePass env s1) then
          turnLoop env n (onePass env s1)
        else onePass env s1 := rfl
    rw [← hs1, e2, if_neg]
    show ¬needsEscalation s2 = true
    rw [show needsEscalation s2 = s2.escalation_required from rfl, hflag2]
    simp
  -- pass-2 handoff targets and counts
  have hh2 : s2.agent_handoffs.map (fun h => h.to_agent) =
      s1.agent_handoffs.map (fun h => h.to_agent) ++
        (checkCollaboration
          (executePrimaryAgent env (routeToAgent s1))).secondary_agents := by
    rw [hs2, hrun2]
    show (synthesizeResponse _).agent_handoffs.map (fun h => h.to_agent) = _
    have hra : (routeToAgent s1).agent_handoffs = s1.agent_handoffs :=
      (routeToAgentWith_core canHandle s1).2.2.2.2.2.1
    rw [(synthesizeResponse_core _).2.2.2.2.2.2.1,
      executeSecondaryAgents_handoffTos env
        (checkCollaboration (executePrimaryAgent env (routeToAgent s1))),
      (checkCollaboration_core _).2.2.2.2.2.1,
      (executePrimaryAgent_core env (routeToAgent s1)).2.2.2.2.2.1, hra]
  have hcount2 : (s2.agent_handoffs.map (fun h => h.to_agent)).count a = 2 := by
    rw [hh2, List.count_append, hcount1, hS2eq,
      List.count_eq_one_of_mem (secondaryPoll_nodup _ _) hamem2]
  exact ⟨hfin, hmem2', hcount1, hcount2⟩

/-- Witness for C10 on a concrete two-domain escalating turn: the primary
is `transaction`, the lone secondary is `account`, the first pass sets the
escalation flag, and the finished run holds two `account`-targeted
handoffs. -/
theorem escalation_pass_reruns_secondaries_witness :
    2 ≤ domainsMentioned (lowerStr multiQuery) ∧
    "account" ∈ (onePass envOk
      (classifyIntentNode (mkInitialState multiQuery []))).secondary_agents ∧
    (onePass envOk (classifyIntentNode
      (mkInitialState multiQuery []))).escalation_required = true ∧
    (runWorkflow envOk 25 (mkInitialState multiQuery []) =
      onePass envOk (onePass envOk
        (classifyIntentNode (mkInitialState multiQuery []))) ∧
     "account" ∈ (onePass envOk (onePass envOk (classifyIntentNode
       (mkInitialState multiQuery [])))).secondary_agents ∧
     ((onePass envOk (classifyIntentNode
         (mkInitialState multiQuery []))).agent_handoffs.map
       (fun h => h.to_agent)).count "account" = 1 ∧
     ((onePass envOk (onePass envOk (classifyIntentNode
         (mkInitialState multiQuery [])))).agent_handoffs.map
       (fun h => h.to_agent)).count "account" = 2) :=
  ⟨by decide, by decide, by decide,
   escalation_pass_reruns_secondaries envOk multiQuery [] "account" 25
     (by decide) (by decide) (by decide) rfl (by decide)⟩

end CorporateChat
